import Mathlib

/-!
# RadiusCheck.js: the radar search plugin

A shallow embedding of `src/RadiusCheck.js`: the module-level variables, the
plugin command handler `pluginCommand` and the scan routine `radar`, followed
by theorems about what the code does.

JavaScript values are modelled by `JsVal`.  Numbers are integers or `NaN`:
the plugin only adds, subtracts, doubles and compares whole numbers, and
whole numbers are exact as doubles up to 2^53.  `radar` computes in whole
numbers, which is what the source does while `loopMax` is below 2^53;
`radarRun` runs the same loops step by step with counters that, as doubles
do, stop advancing at 2^53.  Below 2^53 the two agree (`radarRun_small`), and
from 2^53 on a scan without a match never returns (`radarRun_stalls`).  The
rounding of other values beyond 2^53 is not modelled.  The host objects
`$gameMap` and `$gameVariables` are pure read accessors passed in as
parameters, and `$gameTemp.reserveCommonEvent` is recorded in a list of the
reserved ids.
-/

namespace RadiusCheck

/-! ## JavaScript values -/

/-- The JavaScript values that occur in the plugin. -/
inductive JsVal where
  | undefined
  | nan
  | number (n : Int)
  | string (s : String)
  deriving DecidableEq, Repr

/-- Value of a run of decimal digits read left to right, `acc` being the value
of the digits already read; `none` when a character is not a digit. -/
def digitsValue : Nat → List Char → Option Nat
  | acc, [] => some acc
  | acc, c :: cs =>
    if 48 ≤ c.toNat ∧ c.toNat ≤ 57 then digitsValue (acc * 10 + (c.toNat - 48)) cs
    else none

/-- Value of a non-empty run of decimal digits. -/
def unsignedValue : List Char → Option Int
  | [] => none
  | c :: cs => (digitsValue 0 (c :: cs)).map Int.ofNat

/-- The number a string converts to, for the strings this model covers: the
empty string converts to 0, a decimal integer literal with an optional sign
to its value, and a string that is no numeric literal at all, such as a word,
to `NaN`, for which `none` stands.  The strings JavaScript reads as a number
by another spelling (a fraction, an exponent, a hexadecimal, octal or binary
literal, `Infinity`, a literal between white space) are outside this model,
which gives them `none` as well; so are literals beyond 2^53, which
JavaScript rounds.  `beginsLowerCase` is a test under which `none` is
`NaN`. -/
def stringToNumber (s : String) : Option Int :=
  match s.data with
  | [] => some 0
  | '-' :: cs => (unsignedValue cs).map (fun n => -n)
  | '+' :: cs => unsignedValue cs
  | cs => unsignedValue cs

/-- The abstract operation ToNumber, `none` standing for `NaN`. -/
def toNumber : JsVal → Option Int
  | .undefined => none
  | .nan => none
  | .number n => some n
  | .string s => stringToNumber s

/-- A number as a value. -/
def ofNumber : Option Int → JsVal
  | some n => .number n
  | none => .nan

/-- The arithmetic operator `a * b`. -/
def jsMul (a b : JsVal) : JsVal :=
  match toNumber a, toNumber b with
  | some p, some q => .number (p * q)
  | _, _ => .nan

/-- The arithmetic operator `a - b` (also the value stored by `a -= b`). -/
def jsSub (a b : JsVal) : JsVal :=
  match toNumber a, toNumber b with
  | some p, some q => .number (p - q)
  | _, _ => .nan

/-- The comparison `a > b` for a number `a`; false when `b` converts to `NaN`. -/
def jsGt (a : Int) (b : JsVal) : Bool :=
  match toNumber b with
  | some q => decide (q < a)
  | none => false

/-- The strict equality `a === b` for a number `a`. -/
def jsStrictEq (a : Int) (b : JsVal) : Bool :=
  decide (JsVal.number a = b)

/-! ## Host objects -/

/-- The read accessors of `$gameMap` used by `radar`.  Each returns a number. -/
structure GameMap where
  eventIdXy : JsVal → JsVal → Int
  terrainTag : JsVal → JsVal → Int
  tileId : JsVal → JsVal → JsVal → Int
  regionId : JsVal → JsVal → Int

/-- The accessor `$gameVariables.value`. -/
abbrev GameVariables := JsVal → JsVal

/-- One read of the map, with the arguments passed to the accessor. -/
inductive Sample where
  | eventIdXy (x y : JsVal)
  | terrainTag (x y : JsVal)
  | tileId (x y layer : JsVal)
  | regionId (x y : JsVal)
  deriving DecidableEq, Repr

/-! ## Module-level variables (lines 182-198, and the implicit global `userChoice`) -/

/-- The module-level variables of the plugin. -/
structure Globals where
  radius : JsVal
  xVar : JsVal
  yVar : JsVal
  tileLayer : JsVal
  eventIDMatch : JsVal
  eventIDMatchCommon : JsVal
  eventIDGreater : JsVal
  eventIDGreaterCommon : JsVal
  eventIDLess : JsVal
  eventIDLessCommon : JsVal
  terrainTag : JsVal
  terrainCommon : JsVal
  tileID : JsVal
  tileCommon : JsVal
  regionID : JsVal
  regionCommon : JsVal
  userChoice : JsVal
  deriving DecidableEq, Repr

/-- The expression `Number(params[key] || dflt)`: a missing or empty parameter
is falsy and gives the fallback. -/
def numberParam (params : String → Option String) (key : String) (dflt : Int) : JsVal :=
  match params key with
  | none => .number dflt
  | some s => if s = "" then .number dflt else ofNumber (stringToNumber s)

/-- The module-level variables as lines 182-198 load them from the plugin
parameters.  `userChoice` does not exist until the first command assigns it. -/
def loadGlobals (params : String → Option String) : Globals where
  radius := numberParam params "Radar Radius" 2
  xVar := numberParam params "X Variable" 15
  yVar := numberParam params "Y Variable" 16
  tileLayer := numberParam params "Tile Layer" 1
  eventIDMatch := numberParam params "Event ID Match" 1
  eventIDMatchCommon := numberParam params "Event Id Match Common Event" 11
  eventIDGreater := numberParam params "Event ID Greater Than" 0
  eventIDGreaterCommon := numberParam params "Event ID Greater Common Event" 12
  eventIDLess := numberParam params "Event ID Less Than" 1
  eventIDLessCommon := numberParam params "Event ID Less Than Common Event" 13
  terrainTag := numberParam params "Terrain Tag" 1
  terrainCommon := numberParam params "Terrain Common Event" 14
  tileID := numberParam params "Tile ID" 1
  tileCommon := numberParam params "Tile Common Event" 15
  regionID := numberParam params "Region ID" 1
  regionCommon := numberParam params "Region Common Event" 16
  userChoice := .undefined

/-! ## The scan routine `radar` (lines 333-419) -/

/-- What `radar` does as seen from outside: the value returned (`undefined`
when the loops run out), the ids passed to `$gameTemp.reserveCommonEvent`, the
map reads made before the loops (lines 342-345) and inside them (lines
358-361), in order, and the number of executions of the inner loop body. -/
structure RadarOut where
  ret : JsVal
  reserved : List JsVal
  prologue : List Sample
  samples : List Sample
  iterations : Nat
  deriving DecidableEq, Repr

/-- The arguments of one call of `radar`. -/
structure RadarCall where
  choice : JsVal
  x : JsVal
  y : JsVal
  layer : JsVal
  eventID : JsVal
  terrainTag : JsVal
  tileID : JsVal
  regionID : JsVal
  deriving DecidableEq, Repr

/-- The values sampled in one execution of the inner loop body. -/
structure Targets where
  eventID : Int
  terrainTag : Int
  tileID : Int
  regionID : Int
  deriving DecidableEq, Repr

/-- A `reserveCommonEvent(id); return value;` pair reached in the switch. -/
structure Hit where
  common : JsVal
  value : JsVal
  deriving DecidableEq, Repr

/-- Lines 402-408: `case 'regionID'`, the last case of the switch. -/
def caseRegionID (g : Globals) (c : RadarCall) (t : Targets) : Option Hit :=
  if jsStrictEq t.regionID c.regionID then some ⟨g.regionCommon, .number t.regionID⟩
  else none

/-- Lines 394-399: `case 'tileID'`; without a `break` it runs on into
`case 'regionID'`. -/
def caseTileID (g : Globals) (c : RadarCall) (t : Targets) : Option Hit :=
  if jsStrictEq t.tileID c.tileID then some ⟨g.tileCommon, .number t.tileID⟩
  else caseRegionID g c t

/-- Lines 386-391: `case 'terrainTag'`; runs on into `case 'tileID'`. -/
def caseTerrainTag (g : Globals) (c : RadarCall) (t : Targets) : Option Hit :=
  if jsStrictEq t.terrainTag c.terrainTag then some ⟨g.terrainCommon, .number t.terrainTag⟩
  else caseTileID g c t

/-- Lines 378-383: `case 'eventIDLesser'`, whose test is
`targetEventID > eventID`; runs on into `case 'terrainTag'`. -/
def caseEventIDLesser (g : Globals) (c : RadarCall) (t : Targets) : Option Hit :=
  if jsGt t.eventID c.eventID then some ⟨g.eventIDLessCommon, .number t.eventID⟩
  else caseTerrainTag g c t

/-- Lines 371-376: `case 'eventIDGreater'`; runs on into `case 'eventIDLesser'`. -/
def caseEventIDGreater (g : Globals) (c : RadarCall) (t : Targets) : Option Hit :=
  if jsGt t.eventID c.eventID then some ⟨g.eventIDGreaterCommon, .number t.eventID⟩
  else caseEventIDLesser g c t

/-- Lines 366-369: `case 'eventIDMatch'` reserves and returns without a test. -/
def caseEventIDMatch (g : Globals) (_c : RadarCall) (t : Targets) : Option Hit :=
  some ⟨g.eventIDMatchCommon, .number t.eventID⟩

/-- Lines 365-410: `switch (choice)`.  `none` when control leaves the switch
without returning. -/
def radarSwitch (g : Globals) (c : RadarCall) (t : Targets) : Option Hit :=
  if c.choice = .string "eventIDMatch" then caseEventIDMatch g c t
  else if c.choice = .string "eventIDGreater" then caseEventIDGreater g c t
  else if c.choice = .string "eventIDLesser" then caseEventIDLesser g c t
  else if c.choice = .string "terrainTag" then caseTerrainTag g c t
  else if c.choice = .string "tileID" then caseTileID g c t
  else if c.choice = .string "regionID" then caseRegionID g c t
  else none

/-- The local variables `targetX` and `targetY` of `radar`, with the record of
the map reads made inside the loops and the count of executions of the inner
loop body. -/
structure Scan where
  targetX : JsVal
  targetY : JsVal
  samples : List Sample
  iterations : Nat
  deriving DecidableEq, Repr

/-- Lines 358-361: the four map reads of the inner loop body. -/
def readTargets (m : GameMap) (c : RadarCall) (targetX targetY : JsVal) : Targets where
  eventID := m.eventIdXy targetX targetY
  terrainTag := m.terrainTag targetX targetY
  tileID := m.tileId c.x c.y c.layer
  regionID := m.regionId c.x c.y

/-- The record of the four map reads of lines 358-361 (and of lines 342-345). -/
def readSamples (c : RadarCall) (targetX targetY : JsVal) : List Sample :=
  [.eventIdXy targetX targetY, .terrainTag targetX targetY,
   .tileId c.x c.y c.layer, .regionId c.x c.y]

/-- Lines 354-361: the inner loop body up to the switch, the counter
`innerLoop` apart.  `num2 - 1;` computes a value and drops it, so `num2`
keeps the value it has. -/
def innerStep (c : RadarCall) (num2 : JsVal) (s : Scan) : Scan :=
  let targetY := jsSub c.y num2
  { s with
    targetY := targetY
    samples := s.samples ++ readSamples c s.targetX targetY
    iterations := s.iterations + 1 }

/-- Lines 353-411: `while (innerLoop <= loopMax)` for a `loopMax` that is not
`NaN`.  Returns the state at exit and the `return` taken inside the switch,
if any.  The counter is a whole number that grows by 1, as the double of the
source does while `loopMax` is below 2^53; `innerRun` is the loop with the
counter as a double. -/
def innerWhile (g : Globals) (m : GameMap) (c : RadarCall) (loopMax : Int) (num2 : JsVal)
    (innerLoop : Int) (s : Scan) : Scan × Option Hit :=
  if innerLoop ≤ loopMax then
    let s1 := innerStep c num2 s
    match radarSwitch g c (readTargets m c s1.targetX s1.targetY) with
    | some hit => (s1, some hit)
    | none => innerWhile g m c loopMax num2 (innerLoop + 1) s1
  else (s, none)
termination_by (loopMax + 1 - innerLoop).toNat
decreasing_by omega

/-- Lines 349-417: `while (outerLoop <= loopMax)` for a `loopMax` that is not
`NaN`.  `num1 - 1;` computes a value and drops it; after the inner loop
`innerLoop` is set to 0 and `num2` to `radius`.  The counter is a whole number
that grows by 1, as in `innerWhile`; `outerRun` is the loop with the counter
as a double. -/
def outerWhile (g : Globals) (m : GameMap) (c : RadarCall) (loopMax : Int) (num1 num2 : JsVal)
    (outerLoop innerLoop : Int) (s : Scan) : Scan × Option Hit :=
  if outerLoop ≤ loopMax then
    match innerWhile g m c loopMax num2 innerLoop { s with targetX := jsSub c.x num1 } with
    | (s2, some hit) => (s2, some hit)
    | (s2, none) => outerWhile g m c loopMax num1 g.radius (outerLoop + 1) 0 s2
  else (s, none)
termination_by (loopMax + 1 - outerLoop).toNat
decreasing_by omega

/-- Lines 333-419: `radar(choice, x, y, layer, eventID, terrainTag, tileID,
regionID)`, the arguments gathered in `c`.  `loopMax = 2 * radius` is a
number; when it is `NaN` both loop tests are false and no loop body runs.
This is what the call returns when it returns: `radarRun` tells whether it
does. -/
def radar (g : Globals) (m : GameMap) (c : RadarCall) : RadarOut :=
  let loopMax := jsMul (.number 2) g.radius
  let num1 := g.radius
  let num2 := g.radius
  let s0 : Scan := { targetX := c.x, targetY := c.y, samples := [], iterations := 0 }
  let prologue := readSamples c c.x c.y
  match loopMax with
  | .number n =>
    match outerWhile g m c n num1 num2 0 0 s0 with
    | (s, some hit) =>
      { ret := hit.value, reserved := [hit.common], prologue := prologue,
        samples := s.samples, iterations := s.iterations }
    | (s, none) =>
      { ret := .undefined, reserved := [], prologue := prologue,
        samples := s.samples, iterations := s.iterations }
  | _ =>
    { ret := .undefined, reserved := [], prologue := prologue,
      samples := [], iterations := 0 }

/-! ## The loops with the counters as doubles -/

/-- The largest value a loop counter of `radar` reaches, 2^53.  The counters
are doubles that start at 0 and grow by `+= 1`: every whole number up to 2^53
is exact, and 2^53 + 1 rounds back to 2^53. -/
def maxCounter : Int := 9007199254740992

/-- The value `n += 1` leaves in a loop counter that holds `n`, for the values
0 to 2^53 a counter takes: the next whole number, and 2^53 again at 2^53. -/
def counterSucc (n : Int) : Int :=
  if n < maxCounter then n + 1 else n

/-- Lines 353-411 step by step: `while (innerLoop <= loopMax)` with the
counter advanced by `counterSucc`, run for at most `fuel` tests of the loop
condition.  `none` when the fuel runs out before the loop is left. -/
def innerRun (g : Globals) (m : GameMap) (c : RadarCall) (loopMax : Int) (num2 : JsVal) :
    Nat → Int → Scan → Option (Scan × Option Hit)
  | 0, _, _ => none
  | fuel + 1, innerLoop, s =>
    if innerLoop ≤ loopMax then
      match radarSwitch g c (readTargets m c (innerStep c num2 s).targetX
          (innerStep c num2 s).targetY) with
      | some hit => some (innerStep c num2 s, some hit)
      | none => innerRun g m c loopMax num2 fuel (counterSucc innerLoop) (innerStep c num2 s)
    else some (s, none)

/-- Lines 349-417 step by step: `while (outerLoop <= loopMax)` with the
counter advanced by `counterSucc`, run for at most `fuel` tests of its
condition, the inner loop having the fuel that is left.  `none` when the fuel
runs out before the loop is left. -/
def outerRun (g : Globals) (m : GameMap) (c : RadarCall) (loopMax : Int) (num1 : JsVal) :
    Nat → JsVal → Int → Int → Scan → Option (Scan × Option Hit)
  | 0, _, _, _, _ => none
  | fuel + 1, num2, outerLoop, innerLoop, s =>
    if outerLoop ≤ loopMax then
      match innerRun g m c loopMax num2 fuel innerLoop { s with targetX := jsSub c.x num1 } with
      | none => none
      | some (s2, some hit) => some (s2, some hit)
      | some (s2, none) =>
        outerRun g m c loopMax num1 fuel g.radius (counterSucc outerLoop) 0 s2
    else some (s, none)

/-- Lines 333-419 step by step: `radar` with the loops run on `fuel`.  `none`
when the fuel runs out before `radar` returns; a call for which every amount
of fuel gives `none` never returns. -/
def radarRun (fuel : Nat) (g : Globals) (m : GameMap) (c : RadarCall) : Option RadarOut :=
  let loopMax := jsMul (.number 2) g.radius
  let num1 := g.radius
  let num2 := g.radius
  let s0 : Scan := { targetX := c.x, targetY := c.y, samples := [], iterations := 0 }
  let prologue := readSamples c c.x c.y
  match loopMax with
  | .number n =>
    match outerRun g m c n num1 fuel num2 0 0 s0 with
    | none => none
    | some (s, some hit) =>
      some { ret := hit.value, reserved := [hit.common], prologue := prologue,
             samples := s.samples, iterations := s.iterations }
    | some (s, none) =>
      some { ret := .undefined, reserved := [], prologue := prologue,
             samples := s.samples, iterations := s.iterations }
  | _ =>
    some { ret := .undefined, reserved := [], prologue := prologue,
           samples := [], iterations := 0 }

/-! ## The command handler `pluginCommand` (lines 201-331) -/

/-- The element `args[i]` of the token array: `undefined` past the end. -/
def arg (args : List String) (i : Nat) : JsVal :=
  match args.get? i with
  | some s => .string s
  | none => .undefined

/-- The test `v != undefined && v !== 'x'` made on a token. -/
def given (v : JsVal) : Bool :=
  decide (v ≠ .undefined) && decide (v ≠ .string "x")

/-- The variables one execution of `pluginCommand` reads and writes: the
module-level variables, the locals `xCoordinate` and `yCoordinate`, the local
`tileLayer` that the `var tileLayer` of line 302 declares for the whole function
(it hides the module-level `tileLayer` and is `undefined` until assigned), and
the record of the calls of `radar` with what each did. -/
structure Frame where
  g : Globals
  xCoordinate : JsVal
  yCoordinate : JsVal
  tileLayer : JsVal
  calls : List RadarCall
  outs : List RadarOut
  deriving DecidableEq, Repr

/-- The ids passed to `$gameTemp.reserveCommonEvent` during the execution. -/
def Frame.reserved (f : Frame) : List JsVal :=
  (f.outs.map RadarOut.reserved).flatten

/-- The block `if (args[0] != undefined && args[0] !== 'x') eventIDMatch = args[0];`
(lines 214-217, 234-237, 254-257, 272-275, 313-316). -/
def assignEventIDMatch (args : List String) (f : Frame) : Frame :=
  if given (arg args 0) then { f with g := { f.g with eventIDMatch := arg args 0 } } else f

/-- The block that overrides `xCoordinate` and `yCoordinate` when both tokens
are given (lines 218-223 and its copies). -/
def assignCoordinates (args : List String) (f : Frame) : Frame :=
  if given (arg args 1) && given (arg args 2) then
    { f with xCoordinate := arg args 1, yCoordinate := arg args 2 }
  else f

/-- The block `if (args[i] != undefined && args[i] !== 'x') radius = args[i];`
(lines 224-227 and its copies with i = 3, lines 304-306 with i = 4). -/
def assignRadius (args : List String) (i : Nat) (f : Frame) : Frame :=
  if given (arg args i) then { f with g := { f.g with radius := arg args i } } else f

/-- The block of lines 292-295 in `case 'tileID'`: it tests `args[0]` and
stores `args[1]` in `eventIDLess`. -/
def assignEventIDLess (args : List String) (f : Frame) : Frame :=
  if given (arg args 0) then { f with g := { f.g with eventIDLess := arg args 1 } } else f

/-- The block `if (args[3] != undefined && args[3] !== 'x') var tileLayer = args[3];`
(lines 301-303): it stores the token in the local `tileLayer`. -/
def assignTileLayer (args : List String) (f : Frame) : Frame :=
  if given (arg args 3) then { f with tileLayer := arg args 3 } else f

/-- The statement `userChoice = name;`. -/
def assignUserChoice (name : String) (f : Frame) : Frame :=
  { f with g := { f.g with userChoice := .string name } }

/-- The statement `radar(userChoice, xCoordinate, yCoordinate, tileLayer, eventID,
terrainTag, tileID, regionID);` with the given fifth argument. -/
def callRadar (m : GameMap) (eventID : JsVal) (f : Frame) : Frame :=
  let c : RadarCall :=
    { choice := f.g.userChoice, x := f.xCoordinate, y := f.yCoordinate,
      layer := f.tileLayer, eventID := eventID, terrainTag := f.g.terrainTag,
      tileID := f.g.tileID, regionID := f.g.regionID }
  { f with calls := f.calls ++ [c], outs := f.outs ++ [radar f.g m c] }

/-- Lines 211-229: `case 'eventIDMatch'` up to its `break`. -/
def cmdEventIDMatch (m : GameMap) (args : List String) (f : Frame) : Frame :=
  let f := assignUserChoice "eventIDMatch" f
  let f := assignEventIDMatch args f
  let f := assignCoordinates args f
  let f := assignRadius args 3 f
  callRadar m f.g.eventIDMatch f

/-- Lines 231-249: `case 'eventIDGreater'` up to its `break`. -/
def cmdEventIDGreater (m : GameMap) (args : List String) (f : Frame) : Frame :=
  let f := assignUserChoice "eventIDGreater" f
  let f := assignEventIDMatch args f
  let f := assignCoordinates args f
  let f := assignRadius args 3 f
  callRadar m f.g.eventIDGreater f

/-- Lines 269-287: `case 'terrainTag'` up to its `break`. -/
def cmdTerrainTag (m : GameMap) (args : List String) (f : Frame) : Frame :=
  let f := assignUserChoice "terrainTag" f
  let f := assignEventIDMatch args f
  let f := assignCoordinates args f
  let f := assignRadius args 3 f
  callRadar m (.number 0) f

/-- Lines 251-287: `case 'eventIDLesser'` has no call of `radar` and no
`break`, so control runs on into `case 'terrainTag'`. -/
def cmdEventIDLesser (m : GameMap) (args : List String) (f : Frame) : Frame :=
  let f := assignUserChoice "eventIDLesser" f
  let f := assignEventIDMatch args f
  let f := assignCoordinates args f
  let f := assignRadius args 3 f
  cmdTerrainTag m args f

/-- Lines 289-308: `case 'tileID'` up to its `break`. -/
def cmdTileID (m : GameMap) (args : List String) (f : Frame) : Frame :=
  let f := assignUserChoice "tileID" f
  let f := assignEventIDLess args f
  let f := assignCoordinates args f
  let f := assignTileLayer args f
  let f := assignRadius args 4 f
  callRadar m (.number 0) f

/-- Lines 310-328: `case 'regionID'` up to its `break`. -/
def cmdRegionID (m : GameMap) (args : List String) (f : Frame) : Frame :=
  let f := assignUserChoice "regionID" f
  let f := assignEventIDMatch args f
  let f := assignCoordinates args f
  let f := assignRadius args 3 f
  callRadar m (.number 0) f

/-- Lines 201-331: `Game_Interpreter.prototype.pluginCommand(command, args)`.
The wrapped handler `radarCommands` is taken to do nothing.  The result holds
the module-level variables after the call and the calls of `radar` made. -/
def pluginCommand (g : Globals) (vars : GameVariables) (m : GameMap)
    (command : String) (args : List String) : Frame :=
  let f : Frame :=
    { g := g, xCoordinate := vars g.xVar, yCoordinate := vars g.yVar,
      tileLayer := .undefined, calls := [], outs := [] }
  if command = "eventIDMatch" then cmdEventIDMatch m args f
  else if command = "eventIDGreater" then cmdEventIDGreater m args f
  else if command = "eventIDLesser" then cmdEventIDLesser m args f
  else if command = "terrainTag" then cmdTerrainTag m args f
  else if command = "tileID" then cmdTileID m args f
  else if command = "regionID" then cmdRegionID m args f
  else f

/-! ## Observations and fixtures -/

/-- The cell a map read is made at. -/
def Sample.cell : Sample → JsVal × JsVal
  | .eventIdXy x y => (x, y)
  | .terrainTag x y => (x, y)
  | .tileId x y _ => (x, y)
  | .regionId x y => (x, y)

/-- The module-level variables when no plugin parameter is set: radius 2,
targets 1 (0 for the greater-than search), common events 11 to 16. -/
def defaults : Globals := loadGlobals (fun _ => none)

/-- A variable store holding `x` in slot 15 and `y` in slot 16, the slots
`xVar` and `yVar` of `defaults`, and 0 elsewhere. -/
def centreVars (x y : Int) : GameVariables := fun slot =>
  if slot = .number 15 then .number x
  else if slot = .number 16 then .number y
  else .number 0

/-- A map with no event, terrain tag 0, tile id 0 and region id 0 everywhere. -/
def blankMap : GameMap where
  eventIdXy := fun _ _ => 0
  terrainTag := fun _ _ => 0
  tileId := fun _ _ _ => 0
  regionId := fun _ _ => 0

/-- A terrain search for tag 1 around (0, 0). -/
def terrainQuery : RadarCall where
  choice := .string "terrainTag"
  x := .number 0
  y := .number 0
  layer := .number 0
  eventID := .number 0
  terrainTag := .number 1
  tileID := .number 1
  regionID := .number 1

/-- A map whose terrain tag is 1 at (0, 0) and at (1, 0) and 0 elsewhere, with
no event, tile id 0 and region id 0 everywhere. -/
def twoTagsMap : GameMap where
  eventIdXy := fun _ _ => 0
  terrainTag := fun x y =>
    if (x = .number 0 ∨ x = .number 1) ∧ y = .number 0 then 1 else 0
  tileId := fun _ _ _ => 0
  regionId := fun _ _ => 0

/-- A map whose region id is 1 everywhere, with no event, terrain tag 0 and
tile id 0 everywhere. -/
def regionOneMap : GameMap where
  eventIdXy := fun _ _ => 0
  terrainTag := fun _ _ => 0
  tileId := fun _ _ _ => 0
  regionId := fun _ _ => 1

/-- A map whose tile id on layer 0 is 1 at (1, 1) and 0 elsewhere, with no
event, terrain tag 0 and region id 0 everywhere. -/
def farTileMap : GameMap where
  eventIdXy := fun _ _ => 0
  terrainTag := fun _ _ => 0
  tileId := fun x y layer =>
    if x = .number 1 ∧ y = .number 1 ∧ layer = .number 0 then 1 else 0
  regionId := fun _ _ => 0

/-- A tile search for tile id 1 on layer 0 around (0, 0). -/
def tileQuery : RadarCall where
  choice := .string "tileID"
  x := .number 0
  y := .number 0
  layer := .number 0
  eventID := .number 0
  terrainTag := .number 1
  tileID := .number 1
  regionID := .number 1

/-- A map whose terrain tag is 1 everywhere, with no event, tile id 0 and
region id 0 everywhere. -/
def taggedMap : GameMap where
  eventIdXy := fun _ _ => 0
  terrainTag := fun _ _ => 1
  tileId := fun _ _ _ => 0
  regionId := fun _ _ => 0

/-- A greater-than event search with target 0 around (0, 0). -/
def greaterQuery : RadarCall where
  choice := .string "eventIDGreater"
  x := .number 0
  y := .number 0
  layer := .number 0
  eventID := .number 0
  terrainTag := .number 1
  tileID := .number 1
  regionID := .number 1

/-- A map with event 13 at (21, 10) and no other event, terrain tag 0, tile id
0 and region id 0 everywhere. -/
def event13Map : GameMap where
  eventIdXy := fun x y => if x = .number 21 ∧ y = .number 10 then 13 else 0
  terrainTag := fun _ _ => 0
  tileId := fun _ _ _ => 0
  regionId := fun _ _ => 0

/-- A map with event id 3 read at every cell, terrain tag 0, tile id 0 and
region id 0 everywhere. -/
def event3Map : GameMap where
  eventIdXy := fun _ _ => 3
  terrainTag := fun _ _ => 0
  tileId := fun _ _ _ => 0
  regionId := fun _ _ => 0

/-- A less-than event search with target 10 around (42, 5), as a direct call
of `radar`. -/
def lesserQuery : RadarCall where
  choice := .string "eventIDLesser"
  x := .number 42
  y := .number 5
  layer := .number 0
  eventID := .number 10
  terrainTag := .number 1
  tileID := .number 1
  regionID := .number 1

/-- The six command names of the switch of `pluginCommand`. -/
def commands : List String :=
  ["eventIDMatch", "eventIDGreater", "eventIDLesser", "terrainTag", "tileID", "regionID"]

/-- The position of the radius token: 4 for `tileID`, whose position 3 is the
layer, and 3 for the other commands. -/
def radiusIndex (command : String) : Nat :=
  if command = "tileID" then 4 else 3

/-- A parameter table that sets the two declared parameters
`Event ID Match Common Event` and `Event ID Greater Than Common Event` (lines
25-35) to 21 and 22 and leaves every other parameter unset. -/
def declaredCommonParams : String → Option String := fun key =>
  if key = "Event ID Match Common Event" then some "21"
  else if key = "Event ID Greater Than Common Event" then some "22"
  else none

/-- An event-equals search with target 1 around (0, 0). -/
def matchQuery : RadarCall where
  choice := .string "eventIDMatch"
  x := .number 0
  y := .number 0
  layer := .number 0
  eventID := .number 1
  terrainTag := .number 1
  tileID := .number 1
  regionID := .number 1

/-- The test that a token begins with one of the letters a to z.  No numeric
literal begins so (digits, a sign, a point, white space or the I of `Infinity`
do), so `Number` of such a token is `NaN`. -/
def beginsLowerCase (tok : String) : Bool :=
  match tok.data with
  | ch :: _ => decide (97 ≤ ch.toNat ∧ ch.toNat ≤ 122)
  | [] => false

/-- The module defaults with `radius` 4503599627370496, that is 2^52, for which
`loopMax` is 2^53. -/
def stallGlobals : Globals := { defaults with radius := .number 4503599627370496 }

/-- The record of `k` executions of the inner loop body reading at
`(targetX, targetY)`. -/
def repeatedSamples (c : RadarCall) (targetX targetY : JsVal) (k : Nat) : List Sample :=
  (List.replicate k (readSamples c targetX targetY)).flatten

/-! ## How the loops of `radar` unfold -/

theorem repeatedSamples_succ (c : RadarCall) (tx ty : JsVal) (k : Nat) :
    repeatedSamples c tx ty (k + 1) = readSamples c tx ty ++ repeatedSamples c tx ty k := by
  simp [repeatedSamples, List.replicate_succ]

theorem repeatedSamples_add (c : RadarCall) (tx ty : JsVal) (j k : Nat) :
    repeatedSamples c tx ty (j + k) = repeatedSamples c tx ty j ++ repeatedSamples c tx ty k := by
  simp only [repeatedSamples, List.replicate_add, List.flatten_append]

/-- The inner loop returns in its first execution when the switch returns. -/
theorem innerWhile_hit (g : Globals) (m : GameMap) (c : RadarCall) (n : Int) (num2 : JsVal)
    (i : Int) (s : Scan) (hit : Hit) (hi : i ≤ n)
    (h : radarSwitch g c (readTargets m c s.targetX (jsSub c.y num2)) = some hit) :
    innerWhile g m c n num2 i s = (innerStep c num2 s, some hit) := by
  have h1 : radarSwitch g c (readTargets m c (innerStep c num2 s).targetX
      (innerStep c num2 s).targetY) = some hit := h
  rw [innerWhile, if_pos hi]
  simp only [h1]

/-- When the switch does not return, the inner loop runs `n + 1 - i` times,
every time reading at the same place. -/
theorem innerWhile_miss (g : Globals) (m : GameMap) (c : RadarCall) (n : Int) (num2 : JsVal)
    (k : Nat) : ∀ (i : Int) (s : Scan), (n + 1 - i).toNat = k →
    radarSwitch g c (readTargets m c s.targetX (jsSub c.y num2)) = none →
    (innerWhile g m c n num2 i s).2 = none ∧
    (innerWhile g m c n num2 i s).1.targetX = s.targetX ∧
    (innerWhile g m c n num2 i s).1.samples
      = s.samples ++ repeatedSamples c s.targetX (jsSub c.y num2) k ∧
    (innerWhile g m c n num2 i s).1.iterations = s.iterations + k := by
  induction k with
  | zero =>
    intro i s hk _
    have hi : ¬ i ≤ n := by omega
    rw [innerWhile, if_neg hi]
    simp [repeatedSamples]
  | succ k ih =>
    intro i s hk h
    have hi : i ≤ n := by omega
    have h1 : radarSwitch g c (readTargets m c (innerStep c num2 s).targetX
        (innerStep c num2 s).targetY) = none := h
    have hx : (innerStep c num2 s).targetX = s.targetX := rfl
    have h2 : radarSwitch g c (readTargets m c (innerStep c num2 s).targetX
        (jsSub c.y num2)) = none := h
    obtain ⟨a1, a2, a3, a4⟩ := ih (i + 1) (innerStep c num2 s) (by omega) h2
    rw [innerWhile, if_pos hi]
    simp only [h1]
    refine ⟨a1, by rw [a2, hx], ?_, ?_⟩
    · rw [a3, hx, repeatedSamples_succ]
      simp [innerStep]
    · rw [a4]
      simp only [innerStep]
      omega

/-- The outer loop returns in the first execution of the inner body when the
switch returns there. -/
theorem outerWhile_hit (g : Globals) (m : GameMap) (c : RadarCall) (n : Int) (num1 num2 : JsVal)
    (o i : Int) (s : Scan) (hit : Hit) (ho : o ≤ n) (hi : i ≤ n)
    (h : radarSwitch g c (readTargets m c (jsSub c.x num1) (jsSub c.y num2)) = some hit) :
    outerWhile g m c n num1 num2 o i s
      = (innerStep c num2 { s with targetX := jsSub c.x num1 }, some hit) := by
  rw [outerWhile, if_pos ho, innerWhile_hit g m c n num2 i _ hit hi h]

/-- When the switch does not return, the outer loop runs `n + 1 - o` times and
the inner body `n + 1` times in each, every time reading at the same place. -/
theorem outerWhile_miss (g : Globals) (m : GameMap) (c : RadarCall) (n : Int)
    (h : radarSwitch g c (readTargets m c (jsSub c.x g.radius) (jsSub c.y g.radius)) = none)
    (k : Nat) : ∀ (o : Int) (s : Scan), (n + 1 - o).toNat = k →
    (outerWhile g m c n g.radius g.radius o 0 s).2 = none ∧
    (outerWhile g m c n g.radius g.radius o 0 s).1.samples
      = s.samples ++ repeatedSamples c (jsSub c.x g.radius) (jsSub c.y g.radius)
          (k * (n + 1).toNat) ∧
    (outerWhile g m c n g.radius g.radius o 0 s).1.iterations
      = s.iterations + k * (n + 1).toNat := by
  induction k with
  | zero =>
    intro o s hk
    have ho : ¬ o ≤ n := by omega
    rw [outerWhile, if_neg ho]
    simp [repeatedSamples]
  | succ k ih =>
    intro o s hk
    have ho : o ≤ n := by omega
    obtain ⟨b1, _, b3, b4⟩ := innerWhile_miss g m c n g.radius (n + 1).toNat 0
      { s with targetX := jsSub c.x g.radius } (by simp) h
    rw [outerWhile, if_pos ho]
    generalize innerWhile g m c n g.radius 0 { s with targetX := jsSub c.x g.radius } = r at *
    obtain ⟨s2, r2⟩ := r
    simp only at b1 b3 b4
    subst b1
    obtain ⟨a1, a3, a4⟩ := ih (o + 1) s2 (by omega)
    simp only
    refine ⟨a1, ?_, ?_⟩
    · rw [a3, b3, Nat.succ_mul, Nat.add_comm (k * _), repeatedSamples_add]
      simp
    · rw [a4, b4, Nat.succ_mul]
      omega

/-- A call of `radar` whose switch returns at the place read, with a `loopMax`
that is a number and not negative: one execution of the inner body. -/
theorem radar_hit (g : Globals) (m : GameMap) (c : RadarCall) (n : Int) (hit : Hit)
    (hn : jsMul (.number 2) g.radius = .number n) (h0 : 0 ≤ n)
    (h : radarSwitch g c (readTargets m c (jsSub c.x g.radius) (jsSub c.y g.radius)) = some hit) :
    radar g m c =
      { ret := hit.value, reserved := [hit.common], prologue := readSamples c c.x c.y,
        samples := readSamples c (jsSub c.x g.radius) (jsSub c.y g.radius),
        iterations := 1 } := by
  simp only [radar, hn]
  rw [outerWhile_hit g m c n g.radius g.radius 0 0 _ hit h0 h0 h]
  simp [innerStep]

/-- A call of `radar` whose switch does not return at the place read, with a
`loopMax` that is a number `n`: `(n + 1) * (n + 1)` executions of the inner
body, all reading at that place. -/
theorem radar_miss (g : Globals) (m : GameMap) (c : RadarCall) (n : Int)
    (hn : jsMul (.number 2) g.radius = .number n)
    (h : radarSwitch g c (readTargets m c (jsSub c.x g.radius) (jsSub c.y g.radius)) = none) :
    radar g m c =
      { ret := .undefined, reserved := [], prologue := readSamples c c.x c.y,
        samples := repeatedSamples c (jsSub c.x g.radius) (jsSub c.y g.radius)
          ((n + 1).toNat * (n + 1).toNat),
        iterations := (n + 1).toNat * (n + 1).toNat } := by
  obtain ⟨a1, a3, a4⟩ := outerWhile_miss g m c n h (n + 1).toNat 0
    { targetX := c.x, targetY := c.y, samples := [], iterations := 0 } (by simp)
  simp only [radar, hn]
  generalize outerWhile g m c n g.radius g.radius 0 0
    { targetX := c.x, targetY := c.y, samples := [], iterations := 0 } = r at *
  obtain ⟨s, r2⟩ := r
  simp only at a1 a3 a4
  subst a1
  simp [a3, a4]

/-- A call of `radar` with a `loopMax` that is `NaN`: no loop body runs. -/
theorem radar_nan (g : Globals) (m : GameMap) (c : RadarCall)
    (hn : jsMul (.number 2) g.radius = .nan) :
    radar g m c =
      { ret := .undefined, reserved := [], prologue := readSamples c c.x c.y,
        samples := [], iterations := 0 } := by
  simp only [radar, hn]

/-! ## What the blocks of `pluginCommand` leave unchanged -/

@[simp]
theorem assignUserChoice_calls (name : String) (f : Frame) :
    (assignUserChoice name f).calls = f.calls := rfl

@[simp]
theorem assignUserChoice_outs (name : String) (f : Frame) :
    (assignUserChoice name f).outs = f.outs := rfl

@[simp]
theorem assignEventIDMatch_calls (args : List String) (f : Frame) :
    (assignEventIDMatch args f).calls = f.calls := by
  unfold assignEventIDMatch; split <;> rfl

@[simp]
theorem assignEventIDMatch_outs (args : List String) (f : Frame) :
    (assignEventIDMatch args f).outs = f.outs := by
  unfold assignEventIDMatch; split <;> rfl

@[simp]
theorem assignEventIDLess_calls (args : List String) (f : Frame) :
    (assignEventIDLess args f).calls = f.calls := by
  unfold assignEventIDLess; split <;> rfl

@[simp]
theorem assignEventIDLess_outs (args : List String) (f : Frame) :
    (assignEventIDLess args f).outs = f.outs := by
  unfold assignEventIDLess; split <;> rfl

@[simp]
theorem assignCoordinates_calls (args : List String) (f : Frame) :
    (assignCoordinates args f).calls = f.calls := by
  unfold assignCoordinates; split <;> rfl

@[simp]
theorem assignCoordinates_outs (args : List String) (f : Frame) :
    (assignCoordinates args f).outs = f.outs := by
  unfold assignCoordinates; split <;> rfl

@[simp]
theorem assignTileLayer_calls (args : List String) (f : Frame) :
    (assignTileLayer args f).calls = f.calls := by
  unfold assignTileLayer; split <;> rfl

@[simp]
theorem assignTileLayer_outs (args : List String) (f : Frame) :
    (assignTileLayer args f).outs = f.outs := by
  unfold assignTileLayer; split <;> rfl

@[simp]
theorem assignRadius_calls (args : List String) (i : Nat) (f : Frame) :
    (assignRadius args i f).calls = f.calls := by
  unfold assignRadius; split <;> rfl

@[simp]
theorem assignRadius_outs (args : List String) (i : Nat) (f : Frame) :
    (assignRadius args i f).outs = f.outs := by
  unfold assignRadius; split <;> rfl

@[simp]
theorem callRadar_g (m : GameMap) (eventID : JsVal) (f : Frame) :
    (callRadar m eventID f).g = f.g := rfl

/-- A command that reaches its call of `radar` with nothing recorded yet makes
exactly one call, under the module-level variables it leaves behind. -/
theorem callRadar_single (m : GameMap) (eventID : JsVal) (f : Frame)
    (hc : f.calls = []) (ho : f.outs = []) :
    ∃ c : RadarCall, (callRadar m eventID f).calls = [c] ∧
      (callRadar m eventID f).outs = [radar (callRadar m eventID f).g m c] := by
  refine ⟨RadarCall.mk f.g.userChoice f.xCoordinate f.yCoordinate f.tileLayer eventID
    f.g.terrainTag f.g.tileID f.g.regionID, ?_, ?_⟩
  · simp only [callRadar, hc, List.nil_append]
  · simp only [callRadar, ho, List.nil_append]

/-- The calls of `radar` made by one execution of `pluginCommand`: none or one,
and each runs under the module-level variables the command leaves behind. -/
theorem pluginCommand_calls (g : Globals) (vars : GameVariables) (m : GameMap)
    (command : String) (args : List String) :
    ((pluginCommand g vars m command args).calls = [] ∧
      (pluginCommand g vars m command args).outs = []) ∨
    ∃ c : RadarCall, (pluginCommand g vars m command args).calls = [c] ∧
      (pluginCommand g vars m command args).outs
        = [radar (pluginCommand g vars m command args).g m c] := by
  unfold pluginCommand
  simp only []
  split_ifs
  · exact Or.inr (callRadar_single m _ _ (by simp) (by simp))
  · exact Or.inr (callRadar_single m _ _ (by simp) (by simp))
  · exact Or.inr (callRadar_single m _ _ (by simp) (by simp))
  · exact Or.inr (callRadar_single m _ _ (by simp) (by simp))
  · exact Or.inr (callRadar_single m _ _ (by simp) (by simp))
  · exact Or.inr (callRadar_single m _ _ (by simp) (by simp))
  · exact Or.inl ⟨rfl, rfl⟩

/-- The record of every call of `radar` made by `pluginCommand` is that of
`radar` under the module-level variables the command leaves behind. -/
theorem pluginCommand_outs (g : Globals) (vars : GameVariables) (m : GameMap)
    (command : String) (args : List String) :
    (pluginCommand g vars m command args).outs
      = (pluginCommand g vars m command args).calls.map
          (radar (pluginCommand g vars m command args).g m) := by
  rcases pluginCommand_calls g vars m command args with ⟨h1, h2⟩ | ⟨c, h1, h2⟩
  · rw [h1, h2]; rfl
  · rw [h2, h1]; rfl

/-- A call of `radar` passes at most one id to `reserveCommonEvent`. -/
theorem radar_reserved_length (g : Globals) (m : GameMap) (c : RadarCall) :
    (radar g m c).reserved.length ≤ 1 := by
  unfold radar
  simp only []
  split
  · split <;> simp
  · simp

/-! ## What `pluginCommand` passes to `radar` -/

/-- The target each command passes to `radar`, whatever its tokens: the
module-level `eventIDMatch` after the first block for `eventIDMatch`, and the
untouched module-level default for the other commands. -/
theorem pluginCommand_targets (g : Globals) (vars : GameVariables) (m : GameMap)
    (args : List String) :
    (∀ c ∈ (pluginCommand g vars m "eventIDMatch" args).calls,
      c.eventID = if given (arg args 0) then arg args 0 else g.eventIDMatch) ∧
    (∀ c ∈ (pluginCommand g vars m "eventIDGreater" args).calls,
      c.eventID = g.eventIDGreater) ∧
    (∀ c ∈ (pluginCommand g vars m "terrainTag" args).calls,
      c.terrainTag = g.terrainTag) ∧
    (∀ c ∈ (pluginCommand g vars m "tileID" args).calls, c.tileID = g.tileID) ∧
    (∀ c ∈ (pluginCommand g vars m "regionID" args).calls, c.regionID = g.regionID) := by
  refine ⟨?_, ?_, ?_, ?_, ?_⟩ <;>
    simp [pluginCommand, cmdEventIDMatch, cmdEventIDGreater, cmdTerrainTag, cmdTileID,
      cmdRegionID, callRadar, assignUserChoice, assignEventIDMatch, assignCoordinates,
      assignRadius, assignEventIDLess, assignTileLayer] <;>
    split_ifs <;> simp

/-- Placeholder skipping for the four commands that call `radar` under their
own name: `<command> x x x tok` passes the X and Y variables and the target
the command always passes, and leaves the token in `radius`. -/
theorem placeholders_resolve (g : Globals) (vars : GameVariables) (m : GameMap)
    (tok : String) (htok : tok ≠ "x") :
    (pluginCommand g vars m "eventIDMatch" ["x", "x", "x", tok]).calls
      = [{ choice := .string "eventIDMatch", x := vars g.xVar, y := vars g.yVar,
           layer := .undefined, eventID := g.eventIDMatch, terrainTag := g.terrainTag,
           tileID := g.tileID, regionID := g.regionID }] ∧
    (pluginCommand g vars m "eventIDGreater" ["x", "x", "x", tok]).calls
      = [{ choice := .string "eventIDGreater", x := vars g.xVar, y := vars g.yVar,
           layer := .undefined, eventID := g.eventIDGreater, terrainTag := g.terrainTag,
           tileID := g.tileID, regionID := g.regionID }] ∧
    (pluginCommand g vars m "terrainTag" ["x", "x", "x", tok]).calls
      = [{ choice := .string "terrainTag", x := vars g.xVar, y := vars g.yVar,
           layer := .undefined, eventID := .number 0, terrainTag := g.terrainTag,
           tileID := g.tileID, regionID := g.regionID }] ∧
    (pluginCommand g vars m "regionID" ["x", "x", "x", tok]).calls
      = [{ choice := .string "regionID", x := vars g.xVar, y := vars g.yVar,
           layer := .undefined, eventID := .number 0, terrainTag := g.terrainTag,
           tileID := g.tileID, regionID := g.regionID }] ∧
    (∀ command ∈ ["eventIDMatch", "eventIDGreater", "terrainTag", "regionID"],
      (pluginCommand g vars m command ["x", "x", "x", tok]).g.radius = .string tok) := by
  refine ⟨?_, ?_, ?_, ?_, ?_⟩ <;>
    simp [pluginCommand, cmdEventIDMatch, cmdEventIDGreater, cmdTerrainTag, cmdTileID,
      cmdRegionID, callRadar, assignUserChoice, assignEventIDMatch, assignCoordinates,
      assignRadius, assignEventIDLess, assignTileLayer, arg, given, htok]

/-! ## A radius that is a number -/

theorem jsMul_two (v : JsVal) (r : Int) (h : toNumber v = some r) :
    jsMul (.number 2) v = .number (2 * r) := by
  unfold jsMul
  rw [h]
  rfl

theorem jsSub_of_toNumber (a v : JsVal) (x r : Int) (ha : toNumber a = some x)
    (h : toNumber v = some r) : jsSub a v = .number (x - r) := by
  unfold jsSub
  rw [ha, h]

/-- A call of `radar` with a negative `loopMax`: no loop body runs. -/
theorem radar_neg (g : Globals) (m : GameMap) (c : RadarCall) (n : Int)
    (hn : jsMul (.number 2) g.radius = .number n) (h0 : n < 0) :
    radar g m c =
      { ret := .undefined, reserved := [], prologue := readSamples c c.x c.y,
        samples := [], iterations := 0 } := by
  simp only [radar, hn]
  rw [outerWhile, if_neg (by omega)]

/-- The value of `jsMul` is a number or `NaN`. -/
theorem jsMul_cases (a b : JsVal) : (∃ n, jsMul a b = .number n) ∨ jsMul a b = .nan := by
  unfold jsMul
  split
  · exact Or.inl ⟨_, rfl⟩
  · exact Or.inr rfl

/-- The map enters `radar` through the four values read at the place the loops
read: two maps that give the same four values give the same call. -/
theorem radar_congr (g : Globals) (m1 m2 : GameMap) (c : RadarCall)
    (h : readTargets m1 c (jsSub c.x g.radius) (jsSub c.y g.radius)
      = readTargets m2 c (jsSub c.x g.radius) (jsSub c.y g.radius)) :
    radar g m1 c = radar g m2 c := by
  rcases jsMul_cases (.number 2) g.radius with ⟨n, hn⟩ | hn
  · by_cases h0 : 0 ≤ n
    · cases hs : radarSwitch g c (readTargets m1 c (jsSub c.x g.radius) (jsSub c.y g.radius)) with
      | none =>
        rw [radar_miss g m1 c n hn hs, radar_miss g m2 c n hn (h ▸ hs)]
      | some hit =>
        rw [radar_hit g m1 c n hit hn h0 hs, radar_hit g m2 c n hit hn h0 (h ▸ hs)]
    · rw [radar_neg g m1 c n hn (by omega), radar_neg g m2 c n hn (by omega)]
  · rw [radar_nan g m1 c hn, radar_nan g m2 c hn]

theorem mem_repeatedSamples (c : RadarCall) (tx ty : JsVal) (k : Nat) (s : Sample)
    (h : s ∈ repeatedSamples c tx ty k) : s ∈ readSamples c tx ty := by
  simp only [repeatedSamples, List.mem_flatten, List.mem_replicate] at h
  obtain ⟨l, ⟨_, rfl⟩, hs⟩ := h
  exact hs

/-- Every map read made inside the loops is one of the four reads of the
inner body at `(x - radius, y - radius)`. -/
theorem radar_samples_mem (g : Globals) (m : GameMap) (c : RadarCall) (s : Sample)
    (h : s ∈ (radar g m c).samples) :
    s ∈ readSamples c (jsSub c.x g.radius) (jsSub c.y g.radius) := by
  rcases jsMul_cases (.number 2) g.radius with ⟨n, hn⟩ | hn
  · by_cases h0 : 0 ≤ n
    · cases hs : radarSwitch g c (readTargets m c (jsSub c.x g.radius) (jsSub c.y g.radius)) with
      | none =>
        rw [radar_miss g m c n hn hs] at h
        exact mem_repeatedSamples _ _ _ _ _ h
      | some hit =>
        rw [radar_hit g m c n hit hn h0 hs] at h
        exact h
    · rw [radar_neg g m c n hn (by omega)] at h
      simp at h
  · rw [radar_nan g m c hn] at h
    simp at h

/-- The number of executions of the inner body for a radius that is the
number `r`, not negative: one when the switch returns, `(2r+1)^2` with nothing
reserved when it does not. -/
theorem radar_iterations (g : Globals) (m : GameMap) (c : RadarCall) (r : Nat)
    (hr : toNumber g.radius = some (r : Int)) :
    ((radar g m c).iterations = 1 ∧ (radar g m c).reserved ≠ []) ∨
    ((radar g m c).iterations = (2 * r + 1) ^ 2 ∧ (radar g m c).reserved = [] ∧
      (radar g m c).ret = .undefined) := by
  have hn := jsMul_two g.radius r hr
  cases hs : radarSwitch g c (readTargets m c (jsSub c.x g.radius) (jsSub c.y g.radius)) with
  | none =>
    right
    rw [radar_miss g m c _ hn hs]
    refine ⟨?_, rfl, rfl⟩
    have : (2 * (r : Int) + 1).toNat = 2 * r + 1 := by omega
    simp only [this]
    ring
  | some hit =>
    left
    rw [radar_hit g m c _ hit hn (by omega) hs]
    exact ⟨rfl, by simp⟩

/-! ## The commands of the switch -/

/-- A command that is not one of the six names leaves everything as it was and
calls nothing. -/
theorem pluginCommand_unknown (g : Globals) (vars : GameVariables) (m : GameMap)
    (command : String) (args : List String) (h : command ∉ commands) :
    pluginCommand g vars m command args
      = { g := g, xCoordinate := vars g.xVar, yCoordinate := vars g.yVar,
          tileLayer := .undefined, calls := [], outs := [] } := by
  simp only [commands, List.mem_cons, List.mem_singleton, List.mem_nil_iff, or_false,
    not_or] at h
  obtain ⟨h1, h2, h3, h4, h5, h6⟩ := h
  simp [pluginCommand, h1, h2, h3, h4, h5, h6]

/-- Each of the six commands calls `radar` exactly once. -/
theorem pluginCommand_known (g : Globals) (vars : GameVariables) (m : GameMap)
    (command : String) (args : List String) (h : command ∈ commands) :
    ∃ c : RadarCall, (pluginCommand g vars m command args).calls = [c] ∧
      (pluginCommand g vars m command args).outs
        = [radar (pluginCommand g vars m command args).g m c] := by
  simp only [commands, List.mem_cons, List.mem_singleton, List.mem_nil_iff, or_false] at h
  rcases h with rfl | rfl | rfl | rfl | rfl | rfl <;>
    exact callRadar_single m _ _ (by simp) (by simp)

/-- The module-level variables no command writes: the variable slots, the
module-level `tileLayer`, the targets other than `eventIDMatch` and
`eventIDLess`, and the six common events. -/
theorem pluginCommand_keeps (g : Globals) (vars : GameVariables) (m : GameMap)
    (command : String) (args : List String) :
    (pluginCommand g vars m command args).g.xVar = g.xVar ∧
    (pluginCommand g vars m command args).g.yVar = g.yVar ∧
    (pluginCommand g vars m command args).g.tileLayer = g.tileLayer ∧
    (pluginCommand g vars m command args).g.eventIDGreater = g.eventIDGreater ∧
    (pluginCommand g vars m command args).g.terrainTag = g.terrainTag ∧
    (pluginCommand g vars m command args).g.tileID = g.tileID ∧
    (pluginCommand g vars m command args).g.regionID = g.regionID ∧
    (pluginCommand g vars m command args).g.eventIDMatchCommon = g.eventIDMatchCommon ∧
    (pluginCommand g vars m command args).g.eventIDGreaterCommon = g.eventIDGreaterCommon ∧
    (pluginCommand g vars m command args).g.eventIDLessCommon = g.eventIDLessCommon ∧
    (pluginCommand g vars m command args).g.terrainCommon = g.terrainCommon ∧
    (pluginCommand g vars m command args).g.tileCommon = g.tileCommon ∧
    (pluginCommand g vars m command args).g.regionCommon = g.regionCommon := by
  by_cases h : command ∈ commands
  · simp only [commands, List.mem_cons, List.mem_singleton, List.mem_nil_iff, or_false] at h
    rcases h with rfl | rfl | rfl | rfl | rfl | rfl <;>
      simp [pluginCommand, cmdEventIDMatch, cmdEventIDGreater, cmdEventIDLesser, cmdTerrainTag,
        cmdTileID, cmdRegionID, callRadar, assignUserChoice, assignEventIDMatch,
        assignCoordinates, assignRadius, assignEventIDLess, assignTileLayer] <;>
      split_ifs <;> simp
  · rw [pluginCommand_unknown g vars m command args h]
    simp

/-- The coordinates each command passes to `radar`: the two tokens when both
are given, the X and Y variables otherwise. -/
theorem pluginCommand_coordinates (g : Globals) (vars : GameVariables) (m : GameMap)
    (command : String) (args : List String) :
    ∀ c ∈ (pluginCommand g vars m command args).calls,
      c.x = (if given (arg args 1) && given (arg args 2) then arg args 1 else vars g.xVar) ∧
      c.y = (if given (arg args 1) && given (arg args 2) then arg args 2 else vars g.yVar) := by
  by_cases h : command ∈ commands
  · simp only [commands, List.mem_cons, List.mem_singleton, List.mem_nil_iff, or_false] at h
    rcases h with rfl | rfl | rfl | rfl | rfl | rfl <;>
      simp [pluginCommand, cmdEventIDMatch, cmdEventIDGreater, cmdEventIDLesser, cmdTerrainTag,
        cmdTileID, cmdRegionID, callRadar, assignUserChoice, assignEventIDMatch,
        assignCoordinates, assignRadius, assignEventIDLess, assignTileLayer] <;>
      split_ifs <;> simp_all
  · rw [pluginCommand_unknown g vars m command args h]
    simp

/-- The four blocks shared by the commands other than `tileID`, in one step. -/
theorem blocks_eq (name : String) (args : List String) (i : Nat) (f : Frame) :
    assignRadius args i (assignCoordinates args (assignEventIDMatch args
      (assignUserChoice name f)))
      = { g := { f.g with
            userChoice := .string name
            eventIDMatch := if given (arg args 0) then arg args 0 else f.g.eventIDMatch
            radius := if given (arg args i) then arg args i else f.g.radius }
          xCoordinate :=
            if given (arg args 1) && given (arg args 2) then arg args 1 else f.xCoordinate
          yCoordinate :=
            if given (arg args 1) && given (arg args 2) then arg args 2 else f.yCoordinate
          tileLayer := f.tileLayer, calls := f.calls, outs := f.outs } := by
  unfold assignRadius assignCoordinates assignEventIDMatch assignUserChoice
  cases given (arg args 0) <;> cases given (arg args 1) <;> cases given (arg args 2) <;>
    cases given (arg args i) <;> rfl

/-- The five blocks of `case 'tileID'`, in one step. -/
theorem tileBlocks_eq (args : List String) (f : Frame) :
    assignRadius args 4 (assignTileLayer args (assignCoordinates args (assignEventIDLess args
      (assignUserChoice "tileID" f))))
      = { g := { f.g with
            userChoice := .string "tileID"
            eventIDLess := if given (arg args 0) then arg args 1 else f.g.eventIDLess
            radius := if given (arg args 4) then arg args 4 else f.g.radius }
          xCoordinate :=
            if given (arg args 1) && given (arg args 2) then arg args 1 else f.xCoordinate
          yCoordinate :=
            if given (arg args 1) && given (arg args 2) then arg args 2 else f.yCoordinate
          tileLayer := if given (arg args 3) then arg args 3 else f.tileLayer
          calls := f.calls, outs := f.outs } := by
  unfold assignRadius assignTileLayer assignCoordinates assignEventIDLess assignUserChoice
  cases given (arg args 0) <;> cases given (arg args 1) <;> cases given (arg args 2) <;>
    cases given (arg args 3) <;> cases given (arg args 4) <;> rfl

/-- Running a command again from the module-level variables it left behind,
over the same variable store and map, gives the same frame: the same
variables, the same call of `radar` and the same record of it. -/
theorem pluginCommand_twice (g : Globals) (vars : GameVariables) (m : GameMap)
    (command : String) (args : List String) :
    pluginCommand (pluginCommand g vars m command args).g vars m command args
      = pluginCommand g vars m command args := by
  by_cases h : command ∈ commands
  · simp only [commands, List.mem_cons, List.mem_singleton, List.mem_nil_iff, or_false] at h
    rcases h with rfl | rfl | rfl | rfl | rfl | rfl <;>
      simp only [pluginCommand, cmdEventIDMatch, cmdEventIDGreater, cmdEventIDLesser,
        cmdTerrainTag, cmdTileID, cmdRegionID, blocks_eq, tileBlocks_eq, callRadar,
        String.reduceEq, if_true, if_false] <;>
      cases given (arg args 0) <;> cases given (arg args 1) <;> cases given (arg args 2) <;>
      cases given (arg args 3) <;> cases given (arg args 4) <;> rfl
  · rw [pluginCommand_unknown g vars m command args h, pluginCommand_unknown g vars m command args h]

/-- The value each of the six commands leaves in `radius`: the token at the
radius position when it is given, the value before the call otherwise. -/
theorem pluginCommand_radius (g : Globals) (vars : GameVariables) (m : GameMap)
    (command : String) (args : List String) (h : command ∈ commands) :
    (pluginCommand g vars m command args).g.radius
      = if given (arg args (radiusIndex command)) then arg args (radiusIndex command)
        else g.radius := by
  simp only [commands, List.mem_cons, List.mem_singleton, List.mem_nil_iff, or_false] at h
  rcases h with rfl | rfl | rfl | rfl | rfl | rfl <;>
    simp only [pluginCommand, cmdEventIDMatch, cmdEventIDGreater, cmdEventIDLesser,
      cmdTerrainTag, cmdTileID, cmdRegionID, blocks_eq, tileBlocks_eq, callRadar, radiusIndex,
      String.reduceEq, if_true, if_false]
  split_ifs <;> rfl

/-! ## The step-by-step loops and the loops in whole numbers -/

theorem counterSucc_of_lt (n : Int) (h : n < maxCounter) : counterSucc n = n + 1 := by
  unfold counterSucc
  rw [if_pos h]

theorem counterSucc_le (n : Int) (h : n ≤ maxCounter) : counterSucc n ≤ maxCounter := by
  unfold counterSucc
  split <;> omega

/-- Below 2^53 the step-by-step inner loop, given more fuel than the loop has
tests left, ends as `innerWhile` does. -/
theorem innerRun_small (g : Globals) (m : GameMap) (c : RadarCall) (n : Int) (num2 : JsVal)
    (hn : n < maxCounter) (k : Nat) :
    ∀ (fuel : Nat) (i : Int) (s : Scan), (n + 1 - i).toNat = k → k < fuel →
      innerRun g m c n num2 fuel i s = some (innerWhile g m c n num2 i s) := by
  induction k with
  | zero =>
    intro fuel i s hk hf
    obtain ⟨f, rfl⟩ : ∃ f, fuel = f + 1 := ⟨fuel - 1, by omega⟩
    have hi : ¬ i ≤ n := by omega
    rw [innerRun, if_neg hi, innerWhile, if_neg hi]
  | succ k ih =>
    intro fuel i s hk hf
    obtain ⟨f, rfl⟩ : ∃ f, fuel = f + 1 := ⟨fuel - 1, by omega⟩
    have hi : i ≤ n := by omega
    rw [innerRun, if_pos hi, innerWhile, if_pos hi]
    cases h : radarSwitch g c (readTargets m c (innerStep c num2 s).targetX
        (innerStep c num2 s).targetY) with
    | some hit => simp only [h]
    | none =>
      simp only [h]
      rw [counterSucc_of_lt i (by omega)]
      exact ih f (i + 1) _ (by omega) (by omega)

/-- Below 2^53 the step-by-step outer loop, given enough fuel, ends as
`outerWhile` does. -/
theorem outerRun_small (g : Globals) (m : GameMap) (c : RadarCall) (n : Int) (num1 : JsVal)
    (hn : n < maxCounter) (k : Nat) :
    ∀ (fuel : Nat) (num2 : JsVal) (o i : Int) (s : Scan), (n + 1 - o).toNat = k → 0 ≤ i →
      k + (n + 1).toNat + 1 < fuel →
      outerRun g m c n num1 fuel num2 o i s = some (outerWhile g m c n num1 num2 o i s) := by
  induction k with
  | zero =>
    intro fuel num2 o i s hk _ hf
    obtain ⟨f, rfl⟩ : ∃ f, fuel = f + 1 := ⟨fuel - 1, by omega⟩
    have ho : ¬ o ≤ n := by omega
    rw [outerRun, if_neg ho, outerWhile, if_neg ho]
  | succ k ih =>
    intro fuel num2 o i s hk h0 hf
    obtain ⟨f, rfl⟩ : ∃ f, fuel = f + 1 := ⟨fuel - 1, by omega⟩
    have ho : o ≤ n := by omega
    rw [outerRun, if_pos ho, outerWhile, if_pos ho,
      innerRun_small g m c n num2 hn (n + 1 - i).toNat f i _ rfl (by omega)]
    generalize innerWhile g m c n num2 i { s with targetX := jsSub c.x num1 } = r
    obtain ⟨s2, r2⟩ := r
    cases r2 with
    | some hit => rfl
    | none =>
      simp only []
      rw [counterSucc_of_lt o (by omega)]
      exact ih f g.radius (o + 1) 0 s2 (by omega) (le_refl 0) (by omega)

/-- A call whose `loopMax` is below 2^53 returns, and `radar` is what it
returns: with enough fuel the step-by-step run gives `radar`. -/
theorem radarRun_small (g : Globals) (m : GameMap) (c : RadarCall) (n : Int)
    (hm : jsMul (.number 2) g.radius = .number n) (hn : n < maxCounter) (fuel : Nat)
    (hf : 2 * (n + 1).toNat + 1 < fuel) :
    radarRun fuel g m c = some (radar g m c) := by
  simp only [radarRun, radar, hm]
  rw [outerRun_small g m c n g.radius hn (n + 1).toNat fuel g.radius 0 0 _ (by simp)
    (le_refl 0) (by omega)]
  generalize outerWhile g m c n g.radius g.radius 0 0
    { targetX := c.x, targetY := c.y, samples := [], iterations := 0 } = r
  obtain ⟨s, r2⟩ := r
  cases r2 <;> rfl

/-- From 2^53 on the inner loop is never left when the switch does not
return: the counter stops at 2^53 and the test stays true. -/
theorem innerRun_stalls (g : Globals) (m : GameMap) (c : RadarCall) (n : Int) (num2 : JsVal)
    (tx : JsVal) (hn : maxCounter ≤ n)
    (h : radarSwitch g c (readTargets m c tx (jsSub c.y num2)) = none) :
    ∀ (fuel : Nat) (i : Int) (s : Scan), s.targetX = tx → i ≤ maxCounter →
      innerRun g m c n num2 fuel i s = none := by
  intro fuel
  induction fuel with
  | zero => intro i s _ _; rfl
  | succ f ih =>
    intro i s hs hi
    have h1 : radarSwitch g c (readTargets m c (innerStep c num2 s).targetX
        (innerStep c num2 s).targetY) = none := by
      have hx : (innerStep c num2 s).targetX = tx := hs
      have hy : (innerStep c num2 s).targetY = jsSub c.y num2 := rfl
      rw [hx, hy]
      exact h
    rw [innerRun, if_pos (by omega)]
    simp only [h1]
    exact ih (counterSucc i) _ hs (counterSucc_le i hi)

/-- From 2^53 on a call of `radar` whose switch does not return at the place
read never returns: no amount of fuel brings the run to its end. -/
theorem radarRun_stalls (g : Globals) (m : GameMap) (c : RadarCall) (n : Int)
    (hm : jsMul (.number 2) g.radius = .number n) (hn : maxCounter ≤ n)
    (h : radarSwitch g c (readTargets m c (jsSub c.x g.radius) (jsSub c.y g.radius)) = none)
    (fuel : Nat) : radarRun fuel g m c = none := by
  simp only [radarRun, hm]
  cases fuel with
  | zero => rfl
  | succ f =>
    have hmax : (0 : Int) ≤ maxCounter := by decide
    rw [outerRun, if_pos (by omega),
      innerRun_stalls g m c n g.radius (jsSub c.x g.radius) hn h f 0 _ rfl hmax]

/-- A token that begins with a letter a to z has no number value. -/
theorem stringToNumber_of_beginsLowerCase (tok : String) (h : beginsLowerCase tok = true) :
    stringToNumber tok = none := by
  unfold beginsLowerCase at h
  unfold stringToNumber
  cases hd : tok.data with
  | nil => rw [hd] at h; simp at h
  | cons ch rest =>
    rw [hd] at h
    simp only [decide_eq_true_eq] at h
    have h1 : ch ≠ '-' := by
      rintro rfl
      revert h
      decide
    have h2 : ch ≠ '+' := by
      rintro rfl
      revert h
      decide
    have h3 : ¬ (48 ≤ ch.toNat ∧ ch.toNat ≤ 57) := by omega
    split
    · simp_all
    · simp_all
    · simp_all
    · simp [unsignedValue, digitsValue, h3]

/-! ## The claims -/

set_option maxRecDepth 20000

/-- C1 (the scanned set is the whole square): at radius 2 around (0, 0) the
terrain search on a map without a match runs the inner body 25 times, yet the
only cells it reads inside the loops are (-2, -2) and (0, 0), not the 25 cells
of the square. -/
theorem C1_radar_reads_two_cells :
    (radar defaults blankMap terrainQuery).ret = .undefined ∧
    (radar defaults blankMap terrainQuery).reserved = [] ∧
    (radar defaults blankMap terrainQuery).iterations = 25 ∧
    ((radar defaults blankMap terrainQuery).samples.map Sample.cell).dedup
      = [(.number (-2), .number (-2)), (.number 0, .number 0)] := by
  rw [radar_miss defaults blankMap terrainQuery 4 (by decide) (by decide)]
  decide

/-- C2 (the earlier of two matching cells is reported): with terrain tag 1 at
the two cells (0, 0) and (1, 0) of the square of radius 2 around (0, 0), the
terrain search for tag 1 returns `undefined` and reserves nothing. -/
theorem C2_radar_misses_both_matching_cells :
    twoTagsMap.terrainTag (.number 0) (.number 0) = 1 ∧
    twoTagsMap.terrainTag (.number 1) (.number 0) = 1 ∧
    (radar defaults twoTagsMap terrainQuery).ret = .undefined ∧
    (radar defaults twoTagsMap terrainQuery).reserved = [] := by
  rw [radar_miss defaults twoTagsMap terrainQuery 4 (by decide) (by decide)]
  decide

/-- C3 (no satisfying cell gives no match and no common event): the command
`terrainTag` without arguments on a map where no terrain tag equals the default
target 1 reserves the region common event 16, because the region id read at
the centre equals the default region target. -/
theorem C3_terrainTag_reserves_region_event :
    (∀ x y, regionOneMap.terrainTag x y ≠ 1) ∧
    (pluginCommand defaults (centreVars 5 5) regionOneMap "terrainTag" []).outs.map RadarOut.ret
      = [.number 1] ∧
    (pluginCommand defaults (centreVars 5 5) regionOneMap "terrainTag" []).reserved
      = [.number 16] := by
  have hc : (pluginCommand defaults (centreVars 5 5) regionOneMap "terrainTag" []).calls
      = [{ terrainQuery with x := .number 5, y := .number 5, layer := .undefined }] := by decide
  have hg : (pluginCommand defaults (centreVars 5 5) regionOneMap "terrainTag" []).g
      = { defaults with userChoice := .string "terrainTag" } := by decide
  refine ⟨fun x y => by simp [regionOneMap], ?_, ?_⟩
  · rw [pluginCommand_outs, hc, hg]
    simp only [List.map]
    rw [radar_hit _ regionOneMap _ 4 ⟨.number 16, .number 1⟩ (by decide) (by decide) (by decide)]
  · rw [Frame.reserved, pluginCommand_outs, hc, hg]
    simp only [List.map]
    rw [radar_hit _ regionOneMap _ 4 ⟨.number 16, .number 1⟩ (by decide) (by decide) (by decide)]
    rfl

/-- C4 (a satisfying cell in the square gives a match): with tile id 1 on layer
0 at the cell (1, 1) of the square of radius 2 around (0, 0), the tile search
for tile id 1 on layer 0 returns `undefined` and reserves nothing: inside the
loops the tile id is read at the centre only. -/
theorem C4_radar_misses_tile_off_centre :
    farTileMap.tileId (.number 1) (.number 1) (.number 0) = 1 ∧
    (radar defaults farTileMap tileQuery).ret = .undefined ∧
    (radar defaults farTileMap tileQuery).reserved = [] ∧
    ((radar defaults farTileMap tileQuery).samples.map Sample.cell).dedup
      = [(.number (-2), .number (-2)), (.number 0, .number 0)] := by
  rw [radar_miss defaults farTileMap tileQuery 4 (by decide) (by decide)]
  decide

/-- C5 (the reserved id is the one bound to the kind searched): the
greater-than event search with target 0 on a map with no event and terrain tag
1 reserves the terrain common event 14, not the greater-than common event 12,
and returns the terrain tag. -/
theorem C5_greater_search_reserves_terrain_event :
    defaults.eventIDGreaterCommon = .number 12 ∧
    defaults.terrainCommon = .number 14 ∧
    (radar defaults taggedMap greaterQuery).reserved = [.number 14] ∧
    (radar defaults taggedMap greaterQuery).ret = .number 1 := by
  rw [radar_hit defaults taggedMap greaterQuery 4 ⟨.number 14, .number 1⟩
    (by decide) (by decide) (by decide)]
  decide

/-- C6 (at most one follow-up action per invocation): one execution of
`pluginCommand`, for any command name, argument list, module state, variable
store and map, passes at most one id to `reserveCommonEvent`, and so does
every call of `radar`. -/
theorem C6_at_most_one_common_event :
    (∀ (g : Globals) (vars : GameVariables) (m : GameMap) (command : String)
        (args : List String), (pluginCommand g vars m command args).reserved.length ≤ 1) ∧
    (∀ (g : Globals) (m : GameMap) (c : RadarCall), (radar g m c).reserved.length ≤ 1) := by
  refine ⟨fun g vars m command args => ?_, radar_reserved_length⟩
  rcases pluginCommand_calls g vars m command args with ⟨_, h2⟩ | ⟨c, _, h2⟩
  · simp [Frame.reserved, h2]
  · simpa [Frame.reserved, h2] using radar_reserved_length _ m c

/-- C7 (an event-equals match is at a cell holding the target): with event 13
at (21, 10) and nowhere else, `eventIDMatch 13 21 10 2` reserves the
event-match common event 11 but returns 0, the event id read at (19, 8), in
its first execution of the inner body; the event id at (21, 10) is not read
inside the loops. -/
theorem C7_eventIDMatch_returns_corner_value :
    event13Map.eventIdXy (.number 21) (.number 10) = 13 ∧
    (pluginCommand defaults (centreVars 21 10) event13Map "eventIDMatch"
        ["13", "21", "10", "2"]).calls
      = [{ choice := .string "eventIDMatch", x := .string "21", y := .string "10",
           layer := .undefined, eventID := .string "13", terrainTag := .number 1,
           tileID := .number 1, regionID := .number 1 }] ∧
    (pluginCommand defaults (centreVars 21 10) event13Map "eventIDMatch"
        ["13", "21", "10", "2"]).outs
      = [{ ret := .number 0, reserved := [.number 11],
           prologue := [.eventIdXy (.string "21") (.string "10"),
             .terrainTag (.string "21") (.string "10"),
             .tileId (.string "21") (.string "10") .undefined,
             .regionId (.string "21") (.string "10")],
           samples := [.eventIdXy (.number 19) (.number 8),
             .terrainTag (.number 19) (.number 8),
             .tileId (.string "21") (.string "10") .undefined,
             .regionId (.string "21") (.string "10")],
           iterations := 1 }] := by
  have hc : (pluginCommand defaults (centreVars 21 10) event13Map "eventIDMatch"
        ["13", "21", "10", "2"]).calls
      = [{ choice := .string "eventIDMatch", x := .string "21", y := .string "10",
           layer := .undefined, eventID := .string "13", terrainTag := .number 1,
           tileID := .number 1, regionID := .number 1 }] := by decide
  have hg : (pluginCommand defaults (centreVars 21 10) event13Map "eventIDMatch"
        ["13", "21", "10", "2"]).g
      = { defaults with
          userChoice := .string "eventIDMatch", eventIDMatch := .string "13",
          radius := .string "2" } := by decide
  refine ⟨by decide, hc, ?_⟩
  rw [pluginCommand_outs, hc, hg]
  simp only [List.map]
  rw [radar_hit _ event13Map _ 4 ⟨.number 11, .number 0⟩ (by decide) (by decide) (by decide)]
  decide

/-- C8 (the less-than event search): the documented command `eventIDLess 10 42 5`
calls `radar` not at all; the spelling of the switch, `eventIDLesser 10 42 5`,
calls it once as a terrain search with event target 0 and, on a map where every
cell holds event id 3, reserves nothing; and a direct call of `radar` with
choice `eventIDLesser` and target 10 on that map reserves nothing either, its
test being `targetEventID > eventID`. -/
theorem C8_less_than_search_not_performed :
    (pluginCommand defaults (centreVars 0 0) event3Map "eventIDLess" ["10", "42", "5"]).calls
      = [] ∧
    (pluginCommand defaults (centreVars 0 0) event3Map "eventIDLesser" ["10", "42", "5"]).calls
      = [{ choice := .string "terrainTag", x := .string "42", y := .string "5",
           layer := .undefined, eventID := .number 0, terrainTag := .number 1,
           tileID := .number 1, regionID := .number 1 }] ∧
    (pluginCommand defaults (centreVars 0 0) event3Map "eventIDLesser" ["10", "42", "5"]).reserved
      = [] ∧
    (radar defaults event3Map lesserQuery).reserved = [] := by
  have hc : (pluginCommand defaults (centreVars 0 0) event3Map "eventIDLesser"
        ["10", "42", "5"]).calls
      = [{ choice := .string "terrainTag", x := .string "42", y := .string "5",
           layer := .undefined, eventID := .number 0, terrainTag := .number 1,
           tileID := .number 1, regionID := .number 1 }] := by decide
  have hg : (pluginCommand defaults (centreVars 0 0) event3Map "eventIDLesser"
        ["10", "42", "5"]).g
      = { defaults with userChoice := .string "terrainTag", eventIDMatch := .string "10" } := by
    decide
  refine ⟨by decide, hc, ?_, ?_⟩
  · rw [Frame.reserved, pluginCommand_outs, hc, hg]
    simp only [List.map]
    rw [radar_miss _ event3Map _ 4 (by decide) (by decide)]
    rfl
  · rw [radar_miss defaults event3Map lesserQuery 4 (by decide) (by decide)]

/-- C9 (the token at position 0 is the value compared against): on a map where
every cell holds event id 3, `eventIDGreater 5` calls `radar` with the default
target 0, not 5, so the search matches, returns 3 and reserves the
greater-than common event 12; the token is stored in `eventIDMatch`. -/
theorem C9_greater_search_ignores_target_token :
    (pluginCommand defaults (centreVars 0 0) event3Map "eventIDGreater" ["5"]).calls
      = [{ choice := .string "eventIDGreater", x := .number 0, y := .number 0,
           layer := .undefined, eventID := .number 0, terrainTag := .number 1,
           tileID := .number 1, regionID := .number 1 }] ∧
    (pluginCommand defaults (centreVars 0 0) event3Map "eventIDGreater" ["5"]).g.eventIDMatch
      = .string "5" ∧
    (pluginCommand defaults (centreVars 0 0) event3Map "eventIDGreater" ["5"]).outs.map
      RadarOut.ret = [.number 3] ∧
    (pluginCommand defaults (centreVars 0 0) event3Map "eventIDGreater" ["5"]).reserved
      = [.number 12] := by
  have hc : (pluginCommand defaults (centreVars 0 0) event3Map "eventIDGreater" ["5"]).calls
      = [{ choice := .string "eventIDGreater", x := .number 0, y := .number 0,
           layer := .undefined, eventID := .number 0, terrainTag := .number 1,
           tileID := .number 1, regionID := .number 1 }] := by decide
  have hg : (pluginCommand defaults (centreVars 0 0) event3Map "eventIDGreater" ["5"]).g
      = { defaults with userChoice := .string "eventIDGreater", eventIDMatch := .string "5" } := by
    decide
  refine ⟨hc, by decide, ?_, ?_⟩
  · rw [pluginCommand_outs, hc, hg]
    simp only [List.map]
    rw [radar_hit _ event3Map _ 4 ⟨.number 12, .number 3⟩ (by decide) (by decide) (by decide)]
  · rw [Frame.reserved, pluginCommand_outs, hc, hg]
    simp only [List.map]
    rw [radar_hit _ event3Map _ 4 ⟨.number 12, .number 3⟩ (by decide) (by decide) (by decide)]
    rfl

/-- C10 (placeholder skipping): from the freshly loaded defaults, with 7 and 9
in the X and Y variable slots, `eventIDLesser x x x 3` calls `radar` once as a
terrain search with event target 0, while the configured less-than target is
1, and leaves 3 in `radius`; the documented spelling `eventIDLess x x x 3`
does not call `radar`. -/
theorem C10_less_than_placeholders_run_terrain_search :
    defaults.eventIDLess = .number 1 ∧
    (pluginCommand defaults (centreVars 7 9) blankMap "eventIDLesser" ["x", "x", "x", "3"]).calls
      = [{ choice := .string "terrainTag", x := .number 7, y := .number 9,
           layer := .undefined, eventID := .number 0, terrainTag := .number 1,
           tileID := .number 1, regionID := .number 1 }] ∧
    (pluginCommand defaults (centreVars 7 9) blankMap "eventIDLesser"
        ["x", "x", "x", "3"]).g.radius = .string "3" ∧
    (pluginCommand defaults (centreVars 7 9) blankMap "eventIDLess" ["x", "x", "x", "3"]).calls
      = [] := by
  decide

/-- C11 (as stated: an invocation giving exactly one of X and Y is rejected):
`eventIDMatch 5 10 x 3`, with 7 and 9 in the X and Y variables, calls `radar`
around (7, 9) and reserves the event-match common event 11. -/
theorem C11_partial_pair_not_rejected :
    (pluginCommand defaults (centreVars 7 9) blankMap "eventIDMatch" ["5", "10", "x", "3"]).calls
      = [{ choice := .string "eventIDMatch", x := .number 7, y := .number 9,
           layer := .undefined, eventID := .string "5", terrainTag := .number 1,
           tileID := .number 1, regionID := .number 1 }] ∧
    (pluginCommand defaults (centreVars 7 9) blankMap "eventIDMatch"
        ["5", "10", "x", "3"]).reserved = [.number 11] := by
  have hc : (pluginCommand defaults (centreVars 7 9) blankMap "eventIDMatch"
        ["5", "10", "x", "3"]).calls
      = [{ choice := .string "eventIDMatch", x := .number 7, y := .number 9,
           layer := .undefined, eventID := .string "5", terrainTag := .number 1,
           tileID := .number 1, regionID := .number 1 }] := by decide
  have hg : (pluginCommand defaults (centreVars 7 9) blankMap "eventIDMatch"
        ["5", "10", "x", "3"]).g
      = { defaults with
          userChoice := .string "eventIDMatch", eventIDMatch := .string "5",
          radius := .string "3" } := by decide
  refine ⟨hc, ?_⟩
  rw [Frame.reserved, pluginCommand_outs, hc, hg]
  simp only [List.map]
  rw [radar_hit _ blankMap _ 6 ⟨.number 11, .number 0⟩ (by decide) (by decide) (by decide)]
  rfl

/-- C11 (amended): for each of the six commands, an invocation that gives
exactly one of the X and Y tokens is not rejected; the token given is ignored
and `radar` is called once with both coordinates taken from the X and Y
variables. -/
theorem C11_partial_pair_falls_back (g : Globals) (vars : GameVariables) (m : GameMap)
    (command : String) (args : List String) (hc : command ∈ commands)
    (hp : (given (arg args 1) = true ∧ given (arg args 2) = false) ∨
      (given (arg args 1) = false ∧ given (arg args 2) = true)) :
    ∃ c : RadarCall, (pluginCommand g vars m command args).calls = [c] ∧
      c.x = vars g.xVar ∧ c.y = vars g.yVar := by
  obtain ⟨c, h1, _⟩ := pluginCommand_known g vars m command args hc
  have h2 := pluginCommand_coordinates g vars m command args c (by rw [h1]; simp)
  refine ⟨c, h1, ?_⟩
  rcases hp with ⟨p1, p2⟩ | ⟨p1, p2⟩ <;> simpa [p1, p2] using h2

/-- Witness of C11 (amended): `eventIDMatch 5 10 x 3` with 7 and 9 in the X and
Y variables. -/
theorem C11_partial_pair_falls_back_witness :
    "eventIDMatch" ∈ commands ∧
    ((given (arg ["5", "10", "x", "3"] 1) = true ∧ given (arg ["5", "10", "x", "3"] 2) = false) ∨
      (given (arg ["5", "10", "x", "3"] 1) = false ∧
        given (arg ["5", "10", "x", "3"] 2) = true)) ∧
    ∃ c : RadarCall,
      (pluginCommand defaults (centreVars 7 9) blankMap "eventIDMatch"
        ["5", "10", "x", "3"]).calls = [c] ∧
      c.x = centreVars 7 9 defaults.xVar ∧ c.y = centreVars 7 9 defaults.yVar :=
  ⟨by decide, by decide,
    C11_partial_pair_falls_back defaults (centreVars 7 9) blankMap "eventIDMatch"
      ["5", "10", "x", "3"] (by decide) (by decide)⟩

/-- C12 (defaults are never changed by an invocation): `terrainTag 7 x x 5`
from the defaults leaves "5" in `radius` (2 before) and "7" in `eventIDMatch`
(1 before), and a later `terrainTag` without arguments then scans with radius
5: 121 executions of the inner body on the blank map, not 25. -/
theorem C12_overrides_persist :
    defaults.radius = .number 2 ∧ defaults.eventIDMatch = .number 1 ∧
    (pluginCommand defaults (centreVars 0 0) blankMap "terrainTag"
        ["7", "x", "x", "5"]).g.radius = .string "5" ∧
    (pluginCommand defaults (centreVars 0 0) blankMap "terrainTag"
        ["7", "x", "x", "5"]).g.eventIDMatch = .string "7" ∧
    (pluginCommand
        (pluginCommand defaults (centreVars 0 0) blankMap "terrainTag" ["7", "x", "x", "5"]).g
        (centreVars 0 0) blankMap "terrainTag" []).outs.map RadarOut.iterations = [121] := by
  have h1 : (pluginCommand defaults (centreVars 0 0) blankMap "terrainTag"
        ["7", "x", "x", "5"]).g
      = { defaults with
          userChoice := .string "terrainTag", eventIDMatch := .string "7",
          radius := .string "5" } := by decide
  refine ⟨by decide, by decide, by rw [h1], by rw [h1], ?_⟩
  rw [h1]
  have hc : (pluginCommand { defaults with
          userChoice := .string "terrainTag", eventIDMatch := .string "7",
          radius := .string "5" } (centreVars 0 0) blankMap "terrainTag" []).calls
      = [{ terrainQuery with layer := .undefined }] := by decide
  have hg : (pluginCommand { defaults with
          userChoice := .string "terrainTag", eventIDMatch := .string "7",
          radius := .string "5" } (centreVars 0 0) blankMap "terrainTag" []).g
      = { defaults with
          userChoice := .string "terrainTag", eventIDMatch := .string "7",
          radius := .string "5" } := by decide
  rw [pluginCommand_outs, hc, hg]
  simp only [List.map]
  rw [radar_miss _ blankMap _ 10 (by decide) (by decide)]
  decide

/-- C13 (the tile search passes the configured layer when no layer token is
given): `tileID` without a layer token, or with the placeholder in its place,
calls `radar` with layer `undefined` whatever the module-level `tileLayer` is
(1 when the parameter is unset); with the token "0" it passes that token. -/
theorem C13_tile_layer_default_not_passed :
    defaults.tileLayer = .number 1 ∧
    (∀ (g : Globals) (vars : GameVariables) (m : GameMap),
      (pluginCommand g vars m "tileID" []).calls.map RadarCall.layer = [.undefined]) ∧
    (∀ (g : Globals) (vars : GameVariables) (m : GameMap),
      (pluginCommand g vars m "tileID" ["1", "x", "x", "x", "3"]).calls.map RadarCall.layer
        = [.undefined]) ∧
    (∀ (g : Globals) (vars : GameVariables) (m : GameMap),
      (pluginCommand g vars m "tileID" ["1", "x", "x", "0"]).calls.map RadarCall.layer
        = [.string "0"]) := by
  refine ⟨by decide, fun g vars m => ?_, fun g vars m => ?_, fun g vars m => ?_⟩ <;>
    simp only [pluginCommand, cmdTileID, tileBlocks_eq, callRadar, String.reduceEq, if_true,
      if_false] <;>
    rfl

/-- C14 (as stated: a token that is not an integer aborts the invocation):
`eventIDMatch abc`, with 0 and 0 in the X and Y variables, calls `radar` with
the token as target and reserves the event-match common event 11. -/
theorem C14_word_token_not_rejected :
    (pluginCommand defaults (centreVars 0 0) blankMap "eventIDMatch" ["abc"]).calls
      = [{ matchQuery with layer := .undefined, eventID := .string "abc" }] ∧
    (pluginCommand defaults (centreVars 0 0) blankMap "eventIDMatch" ["abc"]).reserved
      = [.number 11] := by
  have hc : (pluginCommand defaults (centreVars 0 0) blankMap "eventIDMatch" ["abc"]).calls
      = [{ matchQuery with layer := .undefined, eventID := .string "abc" }] := by decide
  have hg : (pluginCommand defaults (centreVars 0 0) blankMap "eventIDMatch" ["abc"]).g
      = { defaults with userChoice := .string "eventIDMatch", eventIDMatch := .string "abc" } := by
    decide
  refine ⟨hc, ?_⟩
  rw [Frame.reserved, pluginCommand_outs, hc, hg]
  simp only [List.map]
  rw [radar_hit _ blankMap _ 4 ⟨.number 11, .number 0⟩ (by decide) (by decide) (by decide)]
  rfl

/-- C14 (amended): tokens are used as they are, so for each of the six
commands no token list stops the invocation, `radar` being called once
whatever the tokens; and when the radius token begins with a letter a to z
and is not the placeholder `x` (a word, which converts to `NaN`), that call
runs no loop body, reads nothing inside the loops and reserves no common
event. -/
theorem C14_word_radius_runs_no_loop (g : Globals) (vars : GameVariables) (m : GameMap)
    (command : String) (args : List String) (tok : String) (hc : command ∈ commands)
    (ht : args.get? (radiusIndex command) = some tok) (hx : tok ≠ "x")
    (hw : beginsLowerCase tok = true) :
    (∀ tokens : List String, ∃ c : RadarCall,
      (pluginCommand g vars m command tokens).calls = [c]) ∧
    ∃ c : RadarCall, (pluginCommand g vars m command args).calls = [c] ∧
      (pluginCommand g vars m command args).outs
        = [{ ret := .undefined, reserved := [], prologue := readSamples c c.x c.y,
             samples := [], iterations := 0 }] ∧
      (pluginCommand g vars m command args).reserved = [] := by
  refine ⟨fun tokens => ?_, ?_⟩
  · obtain ⟨c, h1, _⟩ := pluginCommand_known g vars m command tokens hc
    exact ⟨c, h1⟩
  · obtain ⟨c, h1, h2⟩ := pluginCommand_known g vars m command args hc
    have hn := stringToNumber_of_beginsLowerCase tok hw
    have ha : arg args (radiusIndex command) = .string tok := by
      simp only [arg, ht]
    have hg : given (.string tok) = true := by
      simp [given, hx]
    have hr : (pluginCommand g vars m command args).g.radius = .string tok := by
      rw [pluginCommand_radius g vars m command args hc, ha, hg]
      rfl
    have hm : jsMul (.number 2) (pluginCommand g vars m command args).g.radius = .nan := by
      rw [hr]
      unfold jsMul
      simp only [toNumber, hn]
    have h3 := radar_nan _ m c hm
    refine ⟨c, h1, ?_, ?_⟩
    · rw [h2, h3]
    · rw [Frame.reserved, h2, h3]
      rfl

/-- Witness of C14 (amended): `regionID 1 x x far` on the map with region id 1
everywhere, where a numeric radius would match. -/
theorem C14_word_radius_runs_no_loop_witness :
    "regionID" ∈ commands ∧
    ["1", "x", "x", "far"].get? (radiusIndex "regionID") = some "far" ∧
    "far" ≠ "x" ∧ beginsLowerCase "far" = true ∧
    (∀ tokens : List String, ∃ c : RadarCall,
      (pluginCommand defaults (centreVars 0 0) regionOneMap "regionID" tokens).calls = [c]) ∧
    ∃ c : RadarCall,
      (pluginCommand defaults (centreVars 0 0) regionOneMap "regionID"
        ["1", "x", "x", "far"]).calls = [c] ∧
      (pluginCommand defaults (centreVars 0 0) regionOneMap "regionID"
        ["1", "x", "x", "far"]).outs
        = [{ ret := .undefined, reserved := [], prologue := readSamples c c.x c.y,
             samples := [], iterations := 0 }] ∧
      (pluginCommand defaults (centreVars 0 0) regionOneMap "regionID"
        ["1", "x", "x", "far"]).reserved = [] :=
  ⟨by decide, by decide, by decide, by decide,
    C14_word_radius_runs_no_loop defaults (centreVars 0 0) regionOneMap "regionID"
      ["1", "x", "x", "far"] "far" (by decide) (by decide) (by decide) (by decide)⟩

/-- C15 (the common event reserved is the one configured under the declared
parameter name): with the declared parameters `Event ID Match Common Event` set
to 21 and `Event ID Greater Than Common Event` set to 22, the module loads 11
and 12, and the event-equals and greater-than searches reserve 11 and 12. -/
theorem C15_declared_common_params_not_read :
    declaredCommonParams "Event ID Match Common Event" = some "21" ∧
    declaredCommonParams "Event ID Greater Than Common Event" = some "22" ∧
    (loadGlobals declaredCommonParams).eventIDMatchCommon = .number 11 ∧
    (loadGlobals declaredCommonParams).eventIDGreaterCommon = .number 12 ∧
    (radar (loadGlobals declaredCommonParams) blankMap matchQuery).reserved = [.number 11] ∧
    (radar (loadGlobals declaredCommonParams) event3Map greaterQuery).reserved
      = [.number 12] := by
  refine ⟨by decide, by decide, by decide, by decide, ?_, ?_⟩
  · rw [radar_hit _ blankMap matchQuery 4 ⟨.number 11, .number 0⟩
      (by decide) (by decide) (by decide)]
  · rw [radar_hit _ event3Map greaterQuery 4 ⟨.number 12, .number 3⟩
      (by decide) (by decide) (by decide)]

/-- C16 (radius 0 scans only the centre cell): when `radius` converts to 0 and
the centre is (x, y), `radar` executes its inner loop body exactly once, for
every search kind and map, and every map read made there is at (x, y). -/
theorem C16_radius_zero_reads_centre (g : Globals) (m : GameMap) (c : RadarCall) (x y : Int)
    (hr : toNumber g.radius = some 0) (hx : c.x = .number x) (hy : c.y = .number y) :
    (radar g m c).iterations = 1 ∧
    ∀ s ∈ (radar g m c).samples, s.cell = (.number x, .number y) := by
  constructor
  · rcases radar_iterations g m c 0 hr with ⟨h, _⟩ | ⟨h, _⟩
    · exact h
    · simpa using h
  · intro s hs
    have hm := radar_samples_mem g m c s hs
    rw [jsSub_of_toNumber c.x g.radius x 0 (by rw [hx]; rfl) hr,
      jsSub_of_toNumber c.y g.radius y 0 (by rw [hy]; rfl) hr] at hm
    simp only [readSamples, hx, hy, Int.sub_zero, List.mem_cons, List.mem_singleton,
      List.mem_nil_iff, or_false] at hm
    rcases hm with h | h | h | h <;> rw [h] <;> rfl

/-- Witness of C16: the tile search around (0, 0) with `radius` 0 on the map
with a tile off the centre. -/
theorem C16_radius_zero_reads_centre_witness :
    toNumber ({ defaults with radius := .number 0 } : Globals).radius = some 0 ∧
    (radar { defaults with radius := .number 0 } farTileMap tileQuery).iterations = 1 ∧
    ∀ s ∈ (radar { defaults with radius := .number 0 } farTileMap tileQuery).samples,
      s.cell = (.number 0, .number 0) :=
  ⟨rfl, C16_radius_zero_reads_centre _ farTileMap tileQuery 0 0 rfl rfl rfl⟩

/-- C17 (as stated: the scan ends for every radius that is not negative): with
`radius` 2^52 the bound `loopMax` is 2^53, where the loop counters stop
advancing, and the terrain search on the blank map, which has no match, never
returns: no amount of fuel brings the step-by-step run to its end. -/
theorem C17_scan_never_ends_at_stall :
    toNumber stallGlobals.radius = some 4503599627370496 ∧
    ¬ ∃ (fuel : Nat) (out : RadarOut),
      radarRun fuel stallGlobals blankMap terrainQuery = some out := by
  refine ⟨by decide, ?_⟩
  rintro ⟨fuel, out, h⟩
  rw [radarRun_stalls stallGlobals blankMap terrainQuery 9007199254740992 (by decide)
    (by decide) (by decide) fuel] at h
  exact Option.noConfusion h

/-- C17 (amended): when `radius` converts to a whole number r with
0 <= r < 2^52, `radar` returns, for every search kind, centre and map, after at
most (2r+1)^2 executions of the inner loop body, and after exactly (2r+1)^2
when it reserves no common event. -/
theorem C17_scan_bounded_below_stall (g : Globals) (m : GameMap) (c : RadarCall) (r : Nat)
    (hr : toNumber g.radius = some (r : Int)) (hb : r < 4503599627370496) :
    ∃ (fuel : Nat) (out : RadarOut),
      (∀ f : Nat, fuel ≤ f → radarRun f g m c = some out) ∧
      out.iterations ≤ (2 * r + 1) ^ 2 ∧
      (out.reserved = [] → out.iterations = (2 * r + 1) ^ 2) := by
  have hm := jsMul_two g.radius r hr
  have hn : 2 * (r : Int) < maxCounter := by
    simp only [maxCounter]
    omega
  refine ⟨2 * (2 * (r : Int) + 1).toNat + 2, radar g m c,
    fun f hf => radarRun_small g m c _ hm hn f (by omega), ?_, ?_⟩
  · rcases radar_iterations g m c r hr with ⟨h1, _⟩ | ⟨h1, _, _⟩
    · rw [h1]
      exact Nat.one_le_pow _ _ (by omega)
    · exact le_of_eq h1
  · intro h
    rcases radar_iterations g m c r hr with ⟨_, h2⟩ | ⟨h1, _, _⟩
    · exact absurd h h2
    · exact h1

/-- Witness of C17 (amended): the terrain search of radius 2 on the blank
map. -/
theorem C17_scan_bounded_below_stall_witness :
    toNumber defaults.radius = some ((2 : Nat) : Int) ∧ (2 : Nat) < 4503599627370496 ∧
    ∃ (fuel : Nat) (out : RadarOut),
      (∀ f : Nat, fuel ≤ f → radarRun f defaults blankMap terrainQuery = some out) ∧
      out.iterations ≤ (2 * 2 + 1) ^ 2 ∧
      (out.reserved = [] → out.iterations = (2 * 2 + 1) ^ 2) :=
  ⟨by decide, by decide,
    C17_scan_bounded_below_stall defaults blankMap terrainQuery 2 (by decide) (by decide)⟩

/-- C18 (idempotence): executing the same command with the same tokens a second
time, from the module-level variables the first execution left, over the same
variable store and map, makes the same call of `radar` (same centre, layer and
targets) under the same `radius` and gives the same record of it: the same
returned value and the same reserved common events. -/
theorem C18_same_invocation_twice (g : Globals) (vars : GameVariables) (m : GameMap)
    (command : String) (args : List String) :
    (pluginCommand (pluginCommand g vars m command args).g vars m command args).calls
      = (pluginCommand g vars m command args).calls ∧
    (pluginCommand (pluginCommand g vars m command args).g vars m command args).g.radius
      = (pluginCommand g vars m command args).g.radius ∧
    (pluginCommand (pluginCommand g vars m command args).g vars m command args).outs
      = (pluginCommand g vars m command args).outs ∧
    (pluginCommand (pluginCommand g vars m command args).g vars m command args).reserved
      = (pluginCommand g vars m command args).reserved := by
  rw [pluginCommand_twice]
  exact ⟨rfl, rfl, rfl, rfl⟩

/-- C19 (an unknown command name is a no-op): for a command that is not one of
the six names of the switch, `pluginCommand` does not call `radar`, reserves no
common event and leaves every module-level variable, `radius` and the targets
among them, as it was. -/
theorem C19_unknown_command_noop (g : Globals) (vars : GameVariables) (m : GameMap)
    (command : String) (args : List String) (h : command ∉ commands) :
    (pluginCommand g vars m command args).calls = [] ∧
    (pluginCommand g vars m command args).reserved = [] ∧
    (pluginCommand g vars m command args).g = g := by
  rw [pluginCommand_unknown g vars m command args h]
  exact ⟨rfl, rfl, rfl⟩

/-- Witness of C19: the documented name `eventIDLess`, which is not a case of
the switch. -/
theorem C19_unknown_command_noop_witness :
    "eventIDLess" ∉ commands ∧
    (pluginCommand defaults (centreVars 0 0) event3Map "eventIDLess" ["10", "42", "5"]).calls
      = [] ∧
    (pluginCommand defaults (centreVars 0 0) event3Map "eventIDLess" ["10", "42", "5"]).reserved
      = [] ∧
    (pluginCommand defaults (centreVars 0 0) event3Map "eventIDLess" ["10", "42", "5"]).g
      = defaults :=
  ⟨by decide, C19_unknown_command_noop defaults (centreVars 0 0) event3Map "eventIDLess"
    ["10", "42", "5"] (by decide)⟩

/-- C20 (the outcome depends on the map through two cells): when `radius`
converts to a number r that is not negative and the centre is (x, y), every
event-id and terrain-tag read made inside the loops is at (x-r, y-r) and
every tile-id and region-id read is at (x, y); and two maps that agree on the
event id and terrain tag at (x-r, y-r) and on the tile id on the layer and the
region id at (x, y) give the same returned value and the same reserved common
events. -/
theorem C20_outcome_depends_on_two_cells (g : Globals) (c : RadarCall) (x y : Int) (r : Nat)
    (m1 m2 : GameMap)
    (hr : toNumber g.radius = some (r : Int)) (hx : c.x = .number x) (hy : c.y = .number y)
    (he : m1.eventIdXy (.number (x - r)) (.number (y - r))
      = m2.eventIdXy (.number (x - r)) (.number (y - r)))
    (ht : m1.terrainTag (.number (x - r)) (.number (y - r))
      = m2.terrainTag (.number (x - r)) (.number (y - r)))
    (hi : m1.tileId (.number x) (.number y) c.layer = m2.tileId (.number x) (.number y) c.layer)
    (hg : m1.regionId (.number x) (.number y) = m2.regionId (.number x) (.number y)) :
    (∀ s ∈ (radar g m1 c).samples,
      s = .eventIdXy (.number (x - r)) (.number (y - r)) ∨
      s = .terrainTag (.number (x - r)) (.number (y - r)) ∨
      s = .tileId (.number x) (.number y) c.layer ∨
      s = .regionId (.number x) (.number y)) ∧
    (radar g m1 c).ret = (radar g m2 c).ret ∧
    (radar g m1 c).reserved = (radar g m2 c).reserved := by
  have hsx := jsSub_of_toNumber c.x g.radius x r (by rw [hx]; rfl) hr
  have hsy := jsSub_of_toNumber c.y g.radius y r (by rw [hy]; rfl) hr
  have hc : radar g m1 c = radar g m2 c := by
    apply radar_congr
    rw [hsx, hsy]
    simp only [readTargets, hx, hy, he, ht, hi, hg]
  refine ⟨fun s hs => ?_, by rw [hc], by rw [hc]⟩
  have hm := radar_samples_mem g m1 c s hs
  rw [hsx, hsy] at hm
  simpa [readSamples, hx, hy] using hm

/-- Witness of C20: the terrain search of radius 2 around (0, 0) gives the
same outcome on the blank map and on the map with terrain tag 1 at (0, 0) and
(1, 0), which agree at (-2, -2) and, for tile and region, at (0, 0). -/
theorem C20_outcome_depends_on_two_cells_witness :
    twoTagsMap.terrainTag (.number 0) (.number 0) ≠ blankMap.terrainTag (.number 0) (.number 0) ∧
    (∀ s ∈ (radar defaults blankMap terrainQuery).samples,
      s = .eventIdXy (.number (0 - (2 : Nat))) (.number (0 - (2 : Nat))) ∨
      s = .terrainTag (.number (0 - (2 : Nat))) (.number (0 - (2 : Nat))) ∨
      s = .tileId (.number 0) (.number 0) terrainQuery.layer ∨
      s = .regionId (.number 0) (.number 0)) ∧
    (radar defaults blankMap terrainQuery).ret = (radar defaults twoTagsMap terrainQuery).ret ∧
    (radar defaults blankMap terrainQuery).reserved
      = (radar defaults twoTagsMap terrainQuery).reserved :=
  ⟨by decide, C20_outcome_depends_on_two_cells defaults terrainQuery 0 0 2 blankMap twoTagsMap
    (by decide) rfl rfl (by decide) (by decide) (by decide) (by decide)⟩

end RadiusCheck
